import Mathlib

/-!
# Outfit search demo page (`app/static/app.js`)

A shallow embedding of the submit handler of the recommendation request form:
the values the handler computes with (JavaScript numbers and JSON values), the
platform operations it calls (`parseInt`, `Math.round`, string conversion,
`JSON.parse`, `fetch`, the DOM of the results area), the handler itself, and the
nodes the browser builds from the markup the handler writes, followed by
theorems about what a submission does.
-/

set_option maxRecDepth 20000

namespace OutfitSearch

/-! ## JavaScript numbers -/

/-- A JavaScript Number, that is an IEEE-754 binary64 value. `fin neg m e` is the
finite value `(-1)^neg * m * 2^e`, kept in normal form: `m` is odd, or `m = 0`
and `e = 0` (the two zeros differ in `neg`). -/
inductive JsNum where
  | nan
  | inf (neg : Bool)
  | fin (neg : Bool) (m : Nat) (e : Int)
deriving DecidableEq, Repr

namespace JsNum

/-- Number of binary digits of `n`, by halving; the first argument bounds the
number of halvings. -/
def bitLenAux : Nat → Nat → Nat
  | 0, _ => 0
  | fuel + 1, n => if n = 0 then 0 else bitLenAux fuel (n / 2) + 1

/-- Number of binary digits of `n` (`0` for `0`). -/
def bitLen (n : Nat) : Nat := bitLenAux n n

/-- Moves factors of two from the mantissa to the exponent. -/
def stripAux : Nat → Nat → Int → Nat × Int
  | 0, m, e => (m, e)
  | fuel + 1, m, e => if m % 2 = 0 ∧ m ≠ 0 then stripAux fuel (m / 2) (e + 1) else (m, e)

/-- The Number with magnitude `m * 2^e` when that magnitude needs no rounding:
normal form, and infinity from `2^1024` on. -/
def mkFin (neg : Bool) (m : Nat) (e : Int) : JsNum :=
  if m = 0 then fin neg 0 0
  else
    let p := stripAux m m e
    if p.2 + bitLen p.1 > 1024 then inf neg else fin neg p.1 p.2

/-- The Number nearest to `(-1)^neg * n * 2^e`: 53 significant bits, no bit below
`2^-1074`, ties to the even mantissa (IEEE-754 roundTiesToEven). -/
def roundDyadic (neg : Bool) (n : Nat) (e : Int) : JsNum :=
  let t : Int := max (e + bitLen n - 53) (-1074)
  if t ≤ e then mkFin neg n e
  else
    let k := (t - e).toNat
    let q := n / 2 ^ k
    let r := n % 2 ^ k
    if 2 ^ k < 2 * r ∨ (2 * r = 2 ^ k ∧ q % 2 = 1) then mkFin neg (q + 1) t
    else mkFin neg q t

/-- The Number `2`, the default of `max_outfits`. -/
def two : JsNum := fin false 1 1

/-- The product `x * 100` of the source, in binary64 arithmetic. -/
def mul100 : JsNum → JsNum
  | nan => nan
  | inf neg => inf neg
  | fin neg m e => roundDyadic neg (m * 100) e

/-- `Math.round`: the integer nearest to `x`, a tie going towards `+∞`; the
result is `-0` for `-0` and for `-0.5 ≤ x < 0`. -/
def mathRound : JsNum → JsNum
  | nan => nan
  | inf neg => inf neg
  | fin neg m e =>
    if 0 ≤ e then fin neg m e
    else
      let d := 2 ^ (-e).toNat
      mkFin neg ((2 * m + d - (if neg then 1 else 0)) / (2 * d)) 0

/-- ToBoolean on a Number: `NaN`, `+0` and `-0` are falsy. -/
def truthy : JsNum → Bool
  | nan => false
  | inf _ => true
  | fin _ m _ => decide (m ≠ 0)

/-- Number::toString (radix 10), which prints the shortest digits that identify
the Number. For an integral value of magnitude at most `2^53` these are its
decimal digits (every integer up to there is a Number of its own); the remaining
finite values (larger magnitudes, where the digits are cut short and padded with
zeros, fractions, exponent notation) are printed by the parameter `fmt`, the
formatting of the engine. -/
def toJsString (fmt : JsNum → String) : JsNum → String
  | nan => "NaN"
  | inf false => "Infinity"
  | inf true => "-Infinity"
  | fin neg m e =>
    if m = 0 then "0"
    else if 0 ≤ e ∧ m * 2 ^ e.toNat ≤ 2 ^ 53 then
      (if neg then "-" else "") ++ toString (m * 2 ^ e.toNat)
    else fmt (fin neg m e)

/-- The terms that stand for a Number: `NaN`, the infinities, and the finite
values in normal form with at most 53 significant bits, no bit below `2^-1074`
and a magnitude below `2^1024`. -/
def IsDouble : JsNum → Prop
  | nan => True
  | inf _ => True
  | fin _ m e =>
    (m = 0 ∧ e = 0) ∨ (m % 2 = 1 ∧ m < 2 ^ 53 ∧ -1074 ≤ e ∧ e + bitLen m ≤ 1024)

instance : DecidablePred IsDouble := fun x => by
  cases x <;> unfold IsDouble <;> infer_instance

/-- The rational number a finite Number stands for (`0` for `NaN` and the
infinities, which stand for none). -/
def value : JsNum → ℚ
  | nan => 0
  | inf _ => 0
  | fin neg m e => (if neg then -1 else 1) * (m : ℚ) * (2 : ℚ) ^ e

end JsNum

/-! ## `parseInt(text, 10)` -/

/-- WhiteSpace and LineTerminator code points, which `parseInt` skips at the
start of its input. -/
def isStrWhiteSpace (c : Char) : Bool :=
  c.toNat ∈ [0x9, 0xA, 0xB, 0xC, 0xD, 0x20, 0xA0, 0x1680, 0x2028, 0x2029, 0x202F, 0x205F,
    0x3000, 0xFEFF] || (0x2000 ≤ c.toNat && c.toNat ≤ 0x200A)

/-- Value of a string of decimal digits. -/
def digitsValue (ds : List Char) : Nat :=
  ds.foldl (fun acc c => acc * 10 + (c.toNat - 48)) 0

/-- The builtin `parseInt(text, 10)`: leading white space is skipped, a sign is
read, then the longest run of decimal digits; no digit gives `NaN`. -/
def parseInt (text : String) : JsNum :=
  let s := text.toList.dropWhile isStrWhiteSpace
  let neg := decide (s.head? = some '-')
  let s := match s with
    | '+' :: r => r
    | '-' :: r => r
    | _ => s
  let z := s.takeWhile Char.isDigit
  if z = [] then JsNum.nan else JsNum.roundDyadic neg (digitsValue z) 0

/-- Line 403: `parseInt(document.getElementById('max_outfits').value, 10) || 2`. -/
def max_outfits (text : String) : JsNum :=
  if (parseInt text).truthy then parseInt text else JsNum.two

/-! ## JavaScript values -/

/-- The values the handler works on: what `JSON.parse` and `res.json()` produce,
and `undefined`, the result of reading an absent property. An object is the list
of its own properties, each name once. -/
inductive JsVal where
  | undefined
  | null
  | bool (b : Bool)
  | num (x : JsNum)
  | str (s : String)
  | arr (items : List JsVal)
  | obj (fields : List (String × JsVal))

/-- The TypeErrors and DOM exceptions the engine itself raises while the handler
runs. -/
inductive Fault where
  | readNull (prop : String)
  | readUndefined (prop : String)
  | notFunction (expr : String)
  | notPrimitive
  | notAChild
deriving DecidableEq, Repr

/-- The platform under the page. Exceptions are represented by their `message`.
`jsonParse` is `JSON.parse` (a value, or the message of the SyntaxError),
`jsonStringify` is `JSON.stringify`, `faultMessage` gives the message of an
exception raised by the engine, `fmt` is the number formatting left open by
`JsNum.toJsString`. -/
structure Runtime where
  jsonParse : String → Except String JsVal
  jsonStringify : JsVal → String
  faultMessage : Fault → String
  fmt : JsNum → String

namespace JsVal

/-- ToBoolean. -/
def truthy : JsVal → Bool
  | undefined => false
  | null => false
  | bool b => b
  | num x => x.truthy
  | str s => decide (s ≠ "")
  | arr _ => true
  | obj _ => true

/-- `Array.isArray`. -/
def isArray : JsVal → Bool
  | arr _ => true
  | _ => false

/-- The test `typeof v === 'number'`. -/
def isNumber : JsVal → Bool
  | num _ => true
  | _ => false

/-- Length of a string in UTF-16 code units. -/
def utf16Length (s : String) : Nat :=
  (s.toList.map (fun c => if c.toNat < 0x10000 then 1 else 2)).sum

/-- The property read `v.key`, for the names the handler reads (`length`,
`confidence_score`, `items`, `name`, `item_id`, `item_type`): an own property of
an object, the length of an array or a string, `undefined` otherwise; reading
from `null` or `undefined` throws a TypeError. -/
def get (rt : Runtime) (v : JsVal) (key : String) : Except String JsVal :=
  match v with
  | undefined => .error (rt.faultMessage (.readUndefined key))
  | null => .error (rt.faultMessage (.readNull key))
  | bool _ => .ok undefined
  | num _ => .ok undefined
  | str s => .ok (if key = "length" then num (JsNum.roundDyadic false (utf16Length s) 0) else undefined)
  | arr xs => .ok (if key = "length" then num (JsNum.roundDyadic false xs.length 0) else undefined)
  | obj fs => .ok ((fs.lookup key).getD undefined)

/-- The test `v === 0`. -/
def isZero : JsVal → Bool
  | num (.fin _ m _) => decide (m = 0)
  | _ => false

mutual
/-- ToString, as a template literal applies it to a substituted value. An array
is its elements joined by commas; an object is `[object Object]`, unless an own
property `toString` hides the inherited method, and then the conversion throws. -/
def toStr (rt : Runtime) : JsVal → Except String String
  | undefined => .ok "undefined"
  | null => .ok "null"
  | bool b => .ok (if b then "true" else "false")
  | num x => .ok (x.toJsString rt.fmt)
  | str s => .ok s
  | arr xs => (elemStrs rt xs).map (fun l => ",".intercalate l)
  | obj fs =>
    if (fs.lookup "toString").isSome then .error (rt.faultMessage .notPrimitive)
    else .ok "[object Object]"
/-- The strings `Array.prototype.join` puts together: the empty string for
`undefined` and `null`, ToString of every other element. -/
def elemStrs (rt : Runtime) : List JsVal → Except String (List String)
  | [] => .ok []
  | x :: xs =>
    let first : Except String String :=
      match x with
      | undefined => .ok ""
      | null => .ok ""
      | y => toStr rt y
    match first with
    | .error m => .error m
    | .ok s =>
      match elemStrs rt xs with
      | .error m => .error m
      | .ok l => .ok (s :: l)
end

end JsVal

/-! ## The page: results area, requests, responses -/

/-- What an element created by the handler holds: text set through `textContent`,
or markup set through `innerHTML` (parsed by `Element.node`). -/
inductive Content where
  | text (s : String)
  | html (markup : String)
deriving DecidableEq, Repr

/-- A `div` created by the handler with `document.createElement`. -/
structure Element where
  className : String
  content : Content
deriving DecidableEq, Repr

/-- The children of the results element: the nodes parsed from the markup last
assigned to its `innerHTML`, followed by the elements appended since. The markup
is kept as written; `Area.children` gives the nodes the browser builds from
it. -/
structure Area where
  html : String
  appended : List Element
deriving DecidableEq, Repr

/-- The request handed to `fetch`. -/
structure Request where
  url : String
  method : String
  headers : List (String × String)
  body : String
deriving DecidableEq, Repr

/-- What the handler does to the world, in order. -/
inductive Effect where
  | setHtml (markup : String)
  | append (el : Element)
  | remove (el : Element)
  | fetch (req : Request)
  | readText
  | readJson
deriving DecidableEq, Repr

/-- The results area and the effects so far. -/
structure Page where
  results : Area
  log : List Effect
deriving DecidableEq, Repr

namespace Page

/-- The assignment `resultsEl.innerHTML = markup`. -/
def setHtml (p : Page) (markup : String) : Page :=
  { results := { html := markup, appended := [] }, log := p.log ++ [.setHtml markup] }

/-- The call `resultsEl.appendChild(el)`. -/
def appendChild (p : Page) (el : Element) : Page :=
  { results := { p.results with appended := p.results.appended ++ [el] },
    log := p.log ++ [.append el] }

/-- The call `resultsEl.removeChild(el)`; `none` when `el` is not a child, where
the DOM throws. -/
def removeChild (p : Page) (el : Element) : Option Page :=
  if el ∈ p.results.appended then
    some { results := { p.results with appended := p.results.appended.erase el },
           log := p.log ++ [.remove el] }
  else none

/-- Records an effect that leaves the results area alone. -/
def note (p : Page) (e : Effect) : Page :=
  { p with log := p.log ++ [e] }

end Page

/-- A response as the handler sees it: the status, and what `res.text()` and
`res.json()` give (a value, or the message of the exception thrown). -/
structure Response where
  status : Nat
  text : Except String String
  json : Except String JsVal

/-- The flag `res.ok`: a status from 200 to 299. -/
def Response.ok (res : Response) : Bool :=
  decide (200 ≤ res.status) && decide (res.status ≤ 299)

/-- Outcome of `await fetch(...)`: the promise rejects, or a response arrives. -/
inductive FetchResult where
  | failed (message : String)
  | response (res : Response)

/-- The form fields read by the handler. -/
structure Form where
  occasion_type : String
  weather : String
  max_outfits : String
  consider_previous : Bool
  inventory : String
deriving DecidableEq, Repr

/-! ## The submit handler -/

/-- Lines 416-424: the `user_info` of every payload. -/
def user_info : JsVal :=
  .obj [("user_id", .str "demo-user"),
        ("body_type", .str "rectangle"),
        ("skin_tone", .str "medium"),
        ("height_cm", .num (.fin false 85 1)),
        ("style_preferences", .arr [.str "casual", .str "minimalist"]),
        ("color_preferences", .arr [.str "blue", .str "white", .str "black"]),
        ("fit_preferences", .obj [])]

/-- Lines 415-436: the payload object. -/
def payload (occasion_type weather : String) (inventory : JsVal) (max_outfits : JsNum)
    (consider_previous : Bool) : JsVal :=
  .obj [("user_info", user_info),
        ("occasion", .obj [("occasion_type", .str occasion_type),
                           ("weather", .str weather),
                           ("time_of_day", .str "afternoon"),
                           ("location", .str "office"),
                           ("dress_code", .str occasion_type),
                           ("additional_notes", .null)]),
        ("inventory", inventory),
        ("max_outfits", .num max_outfits),
        ("consider_previous_outfits", .bool consider_previous)]

/-- Lines 445-449: the request of the `fetch` call. -/
def request (rt : Runtime) (body : JsVal) : Request :=
  { url := "/api/v1/recommend-outfits",
    method := "POST",
    headers := [("Content-Type", "application/json")],
    body := rt.jsonStringify body }

/-- Lines 439-441: the loading indicator. -/
def loading : Element :=
  { className := "loading", content := .text "Generating recommendations..." }

/-- Lines 408-409: `JSON.parse` of the inventory text, then the array check with
its own `Error`. -/
def parseInventory (rt : Runtime) (text : String) : Except String JsVal :=
  match rt.jsonParse text with
  | .error m => .error m
  | .ok v => if v.isArray then .ok v else .error "Inventory must be an array"

/-- Lines 468-471: the badge of a card, from the value of `confidence_score`. The
placeholder is the string of the source file, the code points U+00E2 U+20AC
U+201D. -/
def score (rt : Runtime) (confidence_score : JsVal) : String :=
  let scorePct : Option JsNum :=
    match confidence_score with
    | .num x => some (JsNum.mathRound (JsNum.mul100 x))
    | _ => none
  match scorePct with
  | some pct => pct.toJsString rt.fmt ++ "%"
  | none => "â€”"

/-- Line 474: the list entry of one item. -/
def itemEntry (rt : Runtime) (it : JsVal) : Except String String := do
  let name ← it.get rt "name"
  let shown ← if name.truthy then pure name else it.get rt "item_id"
  let shownText ← shown.toStr rt
  let itemType ← it.get rt "item_type"
  let typeText ← itemType.toStr rt
  pure ("<li><strong>" ++ shownText ++ "</strong> <span class=\"muted\">(" ++ typeText
    ++ ")</span></li>")

/-- The callback of `.map` applied to the items in order; the first exception
ends the traversal. -/
def itemEntries (rt : Runtime) : List JsVal → Except String (List String)
  | [] => .ok []
  | it :: rest =>
    match itemEntry rt it with
    | .error m => .error m
    | .ok s =>
      match itemEntries rt rest with
      | .error m => .error m
      | .ok l => .ok (s :: l)

/-- Lines 473-475: `(outfit.items || []).map(...).join('')`. -/
def itemsList (rt : Runtime) (outfit : JsVal) : Except String String := do
  let items ← outfit.get rt "items"
  match (if items.truthy then items else JsVal.arr []) with
  | .arr its => (itemEntries rt its).map String.join
  | _ => .error (rt.faultMessage (.notFunction "(outfit.items || []).map"))

/-- Lines 466-480: the card of the outfit at index `i`. -/
def renderCard (rt : Runtime) (i : Nat) (outfit : JsVal) : Except String Element := do
  let confidence_score ← outfit.get rt "confidence_score"
  let score := score rt confidence_score
  let list ← itemsList rt outfit
  pure { className := "outfit-card",
         content := .html ("\n          <h3>Outfit #" ++ toString (i + 1)
           ++ " <span class=\"badge\">" ++ score ++ "</span></h3>\n          <ul>" ++ list
           ++ "</ul>\n        ") }

/-- Lines 465-482: the `forEach` loop from index `i` on; a card is appended as soon
as it is built, and an exception leaves the cards appended so far. -/
def renderOutfits (rt : Runtime) : Nat → List JsVal → Page → Except String Unit × Page
  | _, [], p => (.ok (), p)
  | i, outfit :: rest, p =>
    match renderCard rt i outfit with
    | .error m => (.error m, p)
    | .ok card => renderOutfits rt (i + 1) rest (p.appendChild card)

/-- Lines 459-482: what is done with the value of `res.json()`. -/
def showOutfits (rt : Runtime) (outfits : JsVal) (p : Page) : Except String Unit × Page :=
  let isEmpty : Except String Bool :=
    if !outfits.truthy then .ok true
    else (outfits.get rt "length").map JsVal.isZero
  match isEmpty with
  | .error m => (.error m, p)
  | .ok true =>
    (.ok (), p.setHtml
      "<div class=\"empty\">No outfits found. Try adjusting inputs or inventory.</div>")
  | .ok false =>
    match outfits with
    | .arr os => renderOutfits rt 0 os p
    | _ => (.error (rt.faultMessage (.notFunction "outfits.forEach")), p)

/-- Lines 444-482: the body of the `try` block. The result is the exception
thrown, if any, and the page as the block leaves it. -/
def tryBody (rt : Runtime) (net : Request → FetchResult) (body : JsVal) (p : Page) :
    Except String Unit × Page :=
  let req := request rt body
  let p := p.note (.fetch req)
  match net req with
  | .failed m => (.error m, p)
  | .response res =>
    match p.removeChild loading with
    | none => (.error (rt.faultMessage .notAChild), p)
    | some p =>
      if !res.ok then
        let p := p.note .readText
        match res.text with
        | .error m => (.error m, p)
        | .ok errText =>
          (.ok (), p.setHtml ("<div class=\"error\">Request failed: " ++ toString res.status
            ++ " - " ++ errText ++ "</div>"))
      else
        let p := p.note .readJson
        match res.json with
        | .error m => (.error m, p)
        | .ok outfits => showOutfits rt outfits p

/-- Lines 397-486: the submit handler, run on the page `p0`, with `net` answering
the request. -/
def submit (rt : Runtime) (net : Request → FetchResult) (form : Form) (p0 : Page) : Page :=
  let p := p0.setHtml ""
  let occasion_type := form.occasion_type
  let weather := form.weather
  let max_outfits := max_outfits form.max_outfits
  let consider_previous := form.consider_previous
  match parseInventory rt form.inventory with
  | .error m => p.setHtml ("<div class=\"error\">Invalid inventory JSON: " ++ m ++ "</div>")
  | .ok inventory =>
    let body := payload occasion_type weather inventory max_outfits consider_previous
    let p := p.appendChild loading
    match tryBody rt net body p with
    | (.error m, p) => p.setHtml ("<div class=\"error\">Unexpected error: " ++ m ++ "</div>")
    | (.ok _, p) => p

/-- The requests among the effects. -/
def requests : List Effect → List Request
  | [] => []
  | .fetch req :: es => req :: requests es
  | _ :: es => requests es

/-- The elements appended among the effects. -/
def appendedEls : List Effect → List Element
  | [] => []
  | .append el :: es => el :: appendedEls es
  | _ :: es => appendedEls es

/-! ## What the browser builds from markup -/

/-- A node of the document tree: a text, or an element with its attributes and
its children. -/
inductive Node where
  | text (s : String)
  | elem (tag : String) (attrs : List (String × String)) (children : List Node)

/-- The tokens of the HTML tokenizer that the model knows. -/
inductive Token where
  | text (s : String)
  | startTag (name : String) (attrs : List (String × String))
  | endTag (name : String)
deriving DecidableEq, Repr

/-- The states of the HTML tokenizer that the model knows: in text, after `<`,
after `</`, in a tag name, and in the one attribute `name="value"` of a start
tag. -/
inductive Lex where
  | data
  | tagOpen
  | endTagOpen
  | tagName (isEnd : Bool) (name : List Char)
  | beforeAttrName (tag : List Char)
  | attrName (tag : List Char) (name : List Char)
  | beforeAttrValue (tag : List Char) (name : List Char)
  | attrValue (tag : List Char) (name : List Char) (value : List Char)
  | afterAttrValue (tag : List Char) (name : List Char) (value : List Char)

/-- The characters that the tokenizer passes on unchanged as text: all but `<`
(a tag may start), `&` (a character reference may start), U+0000 (dropped) and
U+000D (turned into a line feed). -/
def plainChar (c : Char) : Bool :=
  c.toNat != 60 && c.toNat != 38 && c.toNat != 0 && c.toNat != 13

/-- A lower-case ASCII letter. -/
def lowerChar (c : Char) : Bool := 97 ≤ c.toNat && c.toNat ≤ 122

/-- A character of a tag name after its first letter: a lower-case letter or a
digit. -/
def nameChar (c : Char) : Bool := lowerChar c || (48 ≤ c.toNat && c.toNat ≤ 57)

/-- A character of a double-quoted attribute value that is taken as it is. -/
def valueChar (c : Char) : Bool :=
  c.toNat != 34 && c.toNat != 38 && c.toNat != 0 && c.toNat != 13

/-- The elements of the page's templates, the only ones the model parses; none
of them switches the tokenizer to raw text. -/
def knownTags : List String := ["div", "span", "h3", "ul", "li", "strong"]

/-- The text collected so far (held in reverse) becomes a token, unless it is
empty. -/
def flush (pending : List Char) (toks : List Token) : List Token :=
  if pending = [] then toks else .text (String.mk pending.reverse) :: toks

/-- The HTML tokenizer on the markup the model knows; `none` for everything else
(character references, comments, upper-case or unknown tag names, other
attribute syntax, an unfinished tag). A `<` that no tag name or `/` follows is
text. `pending` is the text read since the last tag, in reverse. -/
def tokenize : List Char → List Char → Lex → Option (List Token)
  | [], pending, .data => some (flush pending [])
  | [], pending, .tagOpen => some (flush (Char.ofNat 60 :: pending) [])
  | [], _, _ => none
  | c :: cs, pending, .data =>
    if c.toNat = 60 then tokenize cs pending .tagOpen
    else if plainChar c then tokenize cs (c :: pending) .data
    else none
  | c :: cs, pending, .tagOpen =>
    if c.toNat = 47 then tokenize cs pending .endTagOpen
    else if lowerChar c then tokenize cs pending (.tagName false [c])
    else if (65 ≤ c.toNat && c.toNat ≤ 90) || c.toNat = 33 || c.toNat = 63 then none
    else if c.toNat = 60 then tokenize cs (Char.ofNat 60 :: pending) .tagOpen
    else if plainChar c then tokenize cs (c :: Char.ofNat 60 :: pending) .data
    else none
  | c :: cs, pending, .endTagOpen =>
    if lowerChar c then tokenize cs pending (.tagName true [c]) else none
  | c :: cs, pending, .tagName isEnd name =>
    if nameChar c then tokenize cs pending (.tagName isEnd (c :: name))
    else if c.toNat = 62 then
      if String.mk name.reverse ∈ knownTags then
        (tokenize cs [] .data).map (fun toks =>
          flush pending
            ((if isEnd then .endTag (String.mk name.reverse)
              else .startTag (String.mk name.reverse) []) :: toks))
      else none
    else if c.toNat = 32 && !isEnd then tokenize cs pending (.beforeAttrName name)
    else none
  | c :: cs, pending, .beforeAttrName tag =>
    if lowerChar c then tokenize cs pending (.attrName tag [c]) else none
  | c :: cs, pending, .attrName tag name =>
    if lowerChar c then tokenize cs pending (.attrName tag (c :: name))
    else if c.toNat = 61 then tokenize cs pending (.beforeAttrValue tag name)
    else none
  | c :: cs, pending, .beforeAttrValue tag name =>
    if c.toNat = 34 then tokenize cs pending (.attrValue tag name []) else none
  | c :: cs, pending, .attrValue tag name value =>
    if c.toNat = 34 then tokenize cs pending (.afterAttrValue tag name value)
    else if valueChar c then tokenize cs pending (.attrValue tag name (c :: value))
    else none
  | c :: cs, pending, .afterAttrValue tag name value =>
    if c.toNat = 62 then
      if String.mk tag.reverse ∈ knownTags then
        (tokenize cs [] .data).map (fun toks =>
          flush pending
            (.startTag (String.mk tag.reverse)
              [(String.mk name.reverse, String.mk value.reverse)] :: toks))
      else none
    else none

/-- An element that is still open while the tree is built: its tag, its
attributes and its children so far, the last one first. -/
structure Frame where
  tag : String
  attrs : List (String × String)
  kids : List Node

/-- Whether a start tag `li` opens a plain child: going up from the current
node, no `li` is met before a `ul`, an `h3` or the root (a `li` that is met would
be closed first). -/
def liAllowed : List Frame → Bool
  | [] => true
  | f :: fs =>
    if f.tag = "li" then false
    else if f.tag = "ul" || f.tag = "h3" then true
    else liAllowed fs

/-- Whether a start tag opens a plain child of the current node: not an `li`
that closes another, and not an `h3` right inside an `h3`. -/
def startAllowed (name : String) (stack : List Frame) : Bool :=
  if name = "li" then liAllowed stack
  else if name = "h3" then
    match stack with
    | f :: _ => f.tag != "h3"
    | [] => true
  else true

/-- Appends a node to the current node, or to the root when no element is
open. -/
def addKid (n : Node) : List Frame → List Node → List Frame × List Node
  | [], top => ([], n :: top)
  | f :: fs, top => ({ f with kids := n :: f.kids } :: fs, top)

/-- The tree construction for well-nested markup: a start tag opens a child of
the current node, an end tag closes the current node when the names agree;
`none` where the HTML rules do more (an end tag that does not match the current
node, an element left open at the end, the cases `startAllowed` excludes).
`top` holds the children of the root, the last one first. -/
def build : List Token → List Frame → List Node → Option (List Node)
  | [], [], top => some top.reverse
  | [], _ :: _, _ => none
  | .text s :: ts, stack, top =>
    build ts (addKid (.text s) stack top).1 (addKid (.text s) stack top).2
  | .startTag name attrs :: ts, stack, top =>
    if startAllowed name stack then build ts ({ tag := name, attrs := attrs, kids := [] } :: stack) top
    else none
  | .endTag _ :: _, [], _ => none
  | .endTag name :: ts, f :: fs, top =>
    if f.tag = name then
      build ts (addKid (.elem f.tag f.attrs f.kids.reverse) fs top).1
        (addKid (.elem f.tag f.attrs f.kids.reverse) fs top).2
    else none

/-- The children that the assignment of `markup` to the `innerHTML` of a `div`
produces, for the markup the model knows: the cards are `div` elements, and the
results element, which the page's document declares, is taken to be one as
well. -/
def parseFragment (markup : String) : Option (List Node) :=
  match tokenize markup.toList [] .data with
  | none => none
  | some toks => build toks [] []

/-- The children of an element whose text is `s`: one text node, none for the
empty text. -/
def textNodes (s : String) : List Node := if s = "" then [] else [.text s]

/-- The node of an element created by the handler: a `div` with its class, whose
children are one text (from `textContent`) or the parsed markup (from
`innerHTML`). -/
def Element.node (el : Element) : Option Node :=
  match el.content with
  | .text s => some (.elem "div" [("class", el.className)] (textNodes s))
  | .html markup =>
    match parseFragment markup with
    | none => none
    | some kids => some (.elem "div" [("class", el.className)] kids)

/-- The nodes of a list of elements. -/
def nodesOf : List Element → Option (List Node)
  | [] => some []
  | el :: rest =>
    match el.node, nodesOf rest with
    | some n, some ns => some (n :: ns)
    | _, _ => none

/-- The children of the results element: those parsed from the markup assigned
last, then the elements appended since. -/
def Area.children (a : Area) : Option (List Node) :=
  match parseFragment a.html, nodesOf a.appended with
  | some parsed, some els => some (parsed ++ els)
  | _, _ => none

mutual
/-- The text of a node, as `textContent` gives it. -/
def Node.textContent : Node → String
  | .text s => s
  | .elem _ _ children => Node.textOfList children
/-- The text of a list of nodes. -/
def Node.textOfList : List Node → String
  | [] => ""
  | n :: ns => n.textContent ++ Node.textOfList ns
end

/-- Whether a string holds only characters that the tokenizer passes on as
text. -/
def Plain (s : String) : Prop := ∀ c ∈ s.toList, plainChar c = true

instance (s : String) : Decidable (Plain s) := by
  unfold Plain
  infer_instance

/-! ## Printing Numbers -/

/-- The search for the shortest decimal `d * 10^q` that lies in the rounding
interval of a Number: `lo`, `v` and `hi` are the lower end, the value and the
upper end of the interval in units of `2^s`, the ends belong to it when `incl`
holds. The exponent `q` goes down from its start until a multiple of `10^q` lies
in the interval; of two such multiples the one nearer to `v` is taken, the even
one when they are equally near. -/
def shortestAux (lo v hi : Nat) (incl : Bool) (s : Int) : Nat → Int → Nat × Int
  | 0, q => (0, q)
  | fuel + 1, q =>
    let c := 10 ^ q.toNat * 2 ^ (-s).toNat
    let b := 2 ^ s.toNat * 10 ^ (-q).toNat
    let d := v * b / c
    let inside : Nat → Bool := fun x =>
      x != 0 && (if incl then decide (lo * b ≤ x * c) && decide (x * c ≤ hi * b)
        else decide (lo * b < x * c) && decide (x * c < hi * b))
    if inside d && inside (d + 1) then
      if v * b - d * c < (d + 1) * c - v * b
          ∨ (v * b - d * c = (d + 1) * c - v * b ∧ d % 2 = 0) then (d, q)
      else (d + 1, q)
    else if inside d then (d, q)
    else if inside (d + 1) then (d + 1, q)
    else shortestAux lo v hi incl s fuel (q - 1)

/-- The shortest decimal digits that identify the Number `m * 2^e`, as the pair
`(d, q)` standing for `d * 10^q`: the decimals that round to the Number are those
between the midpoints to its two neighbours (the lower neighbour is at half the
distance when the mantissa is a power of two). -/
def shortestDigits (m : Nat) (e : Int) : Nat × Int :=
  let t : Int := max (e + JsNum.bitLen m - 53) (-1074)
  let mant := m * 2 ^ (e - t).toNat
  let gap := if mant = 2 ^ 52 ∧ -1074 < t then 1 else 2
  let q0 := (toString (m * 2 ^ e.toNat)).length
  shortestAux (4 * mant - gap) (4 * mant) (4 * mant + 2) (mant % 2 == 0) (t - 2) (q0 + 400) q0

/-- Number::toString (radix 10) in full: the shortest digits, written without an
exponent when the decimal point falls within 21 digits before or 6 zeros after
them, and with one otherwise. -/
def numberToString : JsNum → String
  | .nan => "NaN"
  | .inf false => "Infinity"
  | .inf true => "-Infinity"
  | .fin neg m e =>
    if m = 0 then "0"
    else
      let ds := (toString (shortestDigits m e).1).toList
      let k : Int := ds.length
      let n : Int := k + (shortestDigits m e).2
      let body : List Char :=
        if k ≤ n ∧ n ≤ 21 then ds ++ List.replicate (n - k).toNat '0'
        else if 0 < n ∧ n ≤ 21 then ds.take n.toNat ++ '.' :: ds.drop n.toNat
        else if -6 < n ∧ n ≤ 0 then '0' :: '.' :: (List.replicate (-n).toNat '0' ++ ds)
        else
          (match ds with
            | [] => []
            | [c] => [c]
            | c :: rest => c :: '.' :: rest)
          ++ 'e' :: (if 0 ≤ n - 1 then '+' else '-') :: (toString (n - 1).natAbs).toList
      String.mk ((if neg then ['-'] else []) ++ body)

/-! ## Sample inputs -/

/-- A string between double quotes, with the escapes of `JSON.stringify`. -/
def quoteJson (s : String) : String :=
  "\"" ++ String.join (s.toList.map (fun c =>
    if c.toNat = 34 then "\\\""
    else if c.toNat = 92 then "\\\\"
    else if c.toNat = 10 then "\\n"
    else if c.toNat = 13 then "\\r"
    else if c.toNat = 9 then "\\t"
    else if c.toNat = 8 then "\\b"
    else if c.toNat = 12 then "\\f"
    else if c.toNat < 32 then
      "\\u00" ++ String.singleton (Nat.digitChar (c.toNat / 16))
        ++ String.singleton (Nat.digitChar (c.toNat % 16))
    else String.singleton c)) ++ "\""

mutual
/-- The serialisation of the sample platform, after `JSON.stringify`: a Number
that is not finite becomes `null`, `undefined` becomes `null` in an array and
is left out of an object. -/
def sampleStringify : JsVal → String
  | .undefined => "null"
  | .null => "null"
  | .bool b => if b then "true" else "false"
  | .num (.fin neg m e) => JsNum.toJsString numberToString (.fin neg m e)
  | .num _ => "null"
  | .str s => quoteJson s
  | .arr xs => "[" ++ ",".intercalate (sampleStringifyItems xs) ++ "]"
  | .obj fs => "\x7b" ++ ",".intercalate (sampleStringifyFields fs) ++ "\x7d"
/-- The serialised elements of an array. -/
def sampleStringifyItems : List JsVal → List String
  | [] => []
  | x :: xs => sampleStringify x :: sampleStringifyItems xs
/-- The serialised properties of an object. -/
def sampleStringifyFields : List (String × JsVal) → List String
  | [] => []
  | (_, .undefined) :: fs => sampleStringifyFields fs
  | (k, v) :: fs => (quoteJson k ++ ":" ++ sampleStringify v) :: sampleStringifyFields fs
end

/-- The message of the SyntaxError that V8 throws for a text of fewer than 21
characters that starts with a character no JSON value starts with: the character
and the whole text are quoted in it. The empty text gives the message of an
unexpected end. -/
def unexpectedToken (text : String) : String :=
  match text.toList with
  | [] => "Unexpected end of JSON input"
  | c :: _ =>
    "Unexpected token '" ++ String.singleton c ++ "', \"" ++ text ++ "\" is not valid JSON"

/-- A sample platform for concrete runs, with the messages of V8. `JSON.parse`
knows the texts `[]` and `null` and reports every other text through
`unexpectedToken` (the samples give it only texts that message is right for);
Numbers are serialised and printed by `numberToString`. -/
def sampleRuntime : Runtime :=
  { jsonParse := fun s =>
      if s = "[]" then .ok (.arr []) else if s = "null" then .ok .null
      else .error (unexpectedToken s),
    jsonStringify := sampleStringify,
    faultMessage := fun f =>
      match f with
      | .readNull prop => "Cannot read properties of null (reading '" ++ prop ++ "')"
      | .readUndefined prop => "Cannot read properties of undefined (reading '" ++ prop ++ "')"
      | .notFunction expr => expr ++ " is not a function"
      | .notPrimitive => "Cannot convert object to primitive value"
      | .notAChild =>
        "Failed to execute 'removeChild' on 'Node': The node to be removed is not a child of this node.",
    fmt := numberToString }

/-- A sample form. -/
def sampleForm (max_outfits inventory : String) : Form :=
  { occasion_type := "casual", weather := "mild", max_outfits := max_outfits,
    consider_previous := true, inventory := inventory }

/-- A page with nothing in the results area and no effect yet. -/
def emptyPage : Page := { results := { html := "", appended := [] }, log := [] }

/-- A network that is down. -/
def offline : Request → FetchResult := fun _ => .failed "Failed to fetch"

/-- A response with status 500 and the body `server error`, which is no JSON. -/
def errorResponse : Response :=
  { status := 500, text := .ok "server error", json := .error (unexpectedToken "server error") }

/-- A server that answers every request with `errorResponse`. -/
def serverError : Request → FetchResult := fun _ => .response errorResponse

/-- A response with the given status whose body is a text that is no JSON and that
`unexpectedToken` is right for. -/
def textResponse (status : Nat) (body : String) : Response :=
  { status := status, text := .ok body, json := .error (unexpectedToken body) }

/-- A server that answers every request with `textResponse status body`. -/
def serverText (status : Nat) (body : String) : Request → FetchResult :=
  fun _ => .response (textResponse status body)

/-- A response with status 200 whose body is the JSON text of `v`. -/
def jsonResponse (v : JsVal) : Response :=
  { status := 200, text := .ok (sampleStringify v), json := .ok v }

/-- A server that answers every request with `jsonResponse v`. -/
def serverJson (v : JsVal) : Request → FetchResult := fun _ => .response (jsonResponse v)

/-! ## The response as the interface describes it -/

/-- An item of a response outfit, `item_id, name?, item_type`: an object whose
`item_id` and `item_type` are strings and whose `name` is absent, `null` or a
string. -/
def IsItem (it : JsVal) : Prop :=
  ∃ fs id ty, it = .obj fs ∧ fs.lookup "item_id" = some (.str id) ∧
    fs.lookup "item_type" = some (.str ty) ∧
    (fs.lookup "name" = none ∨ fs.lookup "name" = some .null ∨
      ∃ n, fs.lookup "name" = some (.str n))

/-- An outfit object of a response: an object whose `items`, when present, is an
array of items. -/
def IsOutfit (outfit : JsVal) : Prop :=
  ∃ fs, outfit = .obj fs ∧
    (fs.lookup "items" = none ∨
      ∃ its, fs.lookup "items" = some (.arr its) ∧ ∀ it ∈ its, IsItem it)

/-- An own property of an object, `undefined` when absent. -/
def field (v : JsVal) (key : String) : JsVal :=
  match v with
  | .obj fs => (fs.lookup key).getD .undefined
  | _ => .undefined

/-- A string-valued own property of an object. -/
def stringField (v : JsVal) (key : String) : Option String :=
  match field v key with
  | .str s => some s
  | _ => none

/-- The items of an outfit, none when it has no `items` array. -/
def outfitItems (outfit : JsVal) : List JsVal :=
  match field outfit "items" with
  | .arr its => its
  | _ => []

/-- What an entry shows for an item: its name, or its `item_id` when the name is
missing or empty. -/
def specItemLabel (it : JsVal) : String :=
  match stringField it "name" with
  | some n => if n = "" then (stringField it "item_id").getD "" else n
  | none => (stringField it "item_id").getD ""

/-- The list entry of an item: the label, then the `item_type` in parentheses. -/
def specEntry (it : JsVal) : String :=
  "<li><strong>" ++ specItemLabel it ++ "</strong> <span class=\"muted\">("
    ++ (stringField it "item_type").getD "" ++ ")</span></li>"

/-- The card numbered `k` of an outfit: the title `Outfit #k` with the badge, and
one list entry per item, in the order of the items. -/
def specCard (rt : Runtime) (k : Nat) (outfit : JsVal) : Element :=
  { className := "outfit-card",
    content := .html ("\n          <h3>Outfit #" ++ toString k ++ " <span class=\"badge\">"
      ++ score rt (field outfit "confidence_score") ++ "</span></h3>\n          <ul>"
      ++ String.join ((outfitItems outfit).map specEntry) ++ "</ul>\n        ") }

/-- The cards of the outfits, numbered from `k` on. -/
def specCards (rt : Runtime) : Nat → List JsVal → List Element
  | _, [] => []
  | k, outfit :: rest => specCard rt k outfit :: specCards rt (k + 1) rest

/-- The token of a text between two tags: none for the empty text. -/
def textTokens (s : String) : List Token := if s = "" then [] else [.text s]

/-- The tokens of the list entry of an item. -/
def specEntryTokens (it : JsVal) : List Token :=
  [.startTag "li" [], .startTag "strong" []] ++ textTokens (specItemLabel it) ++
    [.endTag "strong", .text " ", .startTag "span" [("class", "muted")],
     .text ("(" ++ (stringField it "item_type").getD "" ++ ")"), .endTag "span", .endTag "li"]

/-- The tokens of the list entries of the items, in order. -/
def specEntriesTokens : List JsVal → List Token
  | [] => []
  | it :: rest => specEntryTokens it ++ specEntriesTokens rest

/-- An error panel with the text `s`, as the document tree holds it. -/
def errorPanel (s : String) : Node := .elem "div" [("class", "error")] [.text s]

/-- The list entry of an item as the document tree holds it: the label in a
`strong` element, a space, and the `item_type` in parentheses in a `span`. -/
def specEntryNode (it : JsVal) : Node :=
  .elem "li" []
    [.elem "strong" [] (textNodes (specItemLabel it)),
     .text " ",
     .elem "span" [("class", "muted")]
       [.text ("(" ++ (stringField it "item_type").getD "" ++ ")")]]

/-- The card numbered `k` of an outfit as the document tree holds it: a heading
with the title `Outfit #k` and the badge, and a list with one entry per item, in
the order of the items. -/
def specCardNode (rt : Runtime) (k : Nat) (outfit : JsVal) : Node :=
  .elem "div" [("class", "outfit-card")]
    [.text "\n          ",
     .elem "h3" []
       [.text ("Outfit #" ++ toString k ++ " "),
        .elem "span" [("class", "badge")] [.text (score rt (field outfit "confidence_score"))]],
     .text "\n          ",
     .elem "ul" [] ((outfitItems outfit).map specEntryNode),
     .text "\n        "]

/-- The card nodes of the outfits, numbered from `k` on. -/
def specCardNodes (rt : Runtime) : Nat → List JsVal → List Node
  | _, [] => []
  | k, outfit :: rest => specCardNode rt k outfit :: specCardNodes rt (k + 1) rest

/-- The response of the interface example: one outfit with the item `top1` of
type `top` and the confidence score 0.8, the Number `3602879701896397 * 2^-52`. -/
def sampleOutfits : List JsVal :=
  [.obj [("items", .arr [.obj [("item_id", .str "top1"), ("item_type", .str "top")]]),
         ("confidence_score", .num (.fin false 3602879701896397 (-52)))]]

/-- A response of one outfit with one item, whose name holds markup. -/
def markupOutfits : List JsVal :=
  [.obj [("items", .arr [.obj [("item_id", .str "top1"),
                               ("name", .str "x</strong></li><li><strong>y"),
                               ("item_type", .str "top")]]),
         ("confidence_score", .num (.fin false 3602879701896397 (-52)))]]

/-- A response array with a `null` entry after the valid outfit. -/
def sampleWithNull : List JsVal := sampleOutfits ++ [JsVal.null]

/-- The Number written `0.8`: `3602879701896397 * 2^-52`. -/
def score08 : JsNum := .fin false 3602879701896397 (-52)

/-- The Number written `0.155`: `5584463537939415 * 2^-55`, a little below
155/1000. -/
def score0155 : JsNum := .fin false 5584463537939415 (-55)

/-- `Quiet p q`: the page `q` comes from `p` by further effects, none of them a
request. -/
def Quiet (p q : Page) : Prop :=
  ∃ added, q.log = p.log ++ added ∧ requests added = []

/-! ## The fixture inventory -/

/-- Lines 7-394: `defaultInventory`, the items the inventory field is filled with
when the page loads. -/
def defaultInventory : JsVal :=
  .arr [
    .obj [("item_id", .str "top1"), ("item_type", .str "top"), ("name", .str "Blue Dress Shirt"),
      ("color", .str "blue"), ("material", .str "cotton"), ("size", .str "M"),
      ("style", .arr [.str "formal", .str "business"]),
      ("weather_suitability", .arr [.str "cool", .str "mild", .str "warm"]),
      ("occasion_suitability", .arr [.str "business_casual", .str "casual"]),
      ("is_clean", .bool true), ("metadata", .obj [])],
    .obj [("item_id", .str "bottom1"), ("item_type", .str "bottom"),
      ("name", .str "Black Dress Pants"), ("color", .str "black"), ("material", .str "wool"),
      ("size", .str "32"), ("style", .arr [.str "formal", .str "business"]),
      ("weather_suitability", .arr [.str "cool", .str "mild"]),
      ("occasion_suitability", .arr [.str "business_casual", .str "casual"]),
      ("is_clean", .bool true), ("metadata", .obj [])],
    .obj [("item_id", .str "shoes1"), ("item_type", .str "shoes"),
      ("name", .str "Black Leather Shoes"), ("color", .str "black"),
      ("material", .str "leather"), ("size", .str "42"),
      ("style", .arr [.str "formal", .str "classic"]),
      ("weather_suitability", .arr [.str "cool", .str "mild"]),
      ("occasion_suitability", .arr [.str "business_casual", .str "casual"]),
      ("is_clean", .bool true), ("metadata", .obj [])],
    .obj [("item_id", .str "top2"), ("item_type", .str "top"), ("name", .str "White T-Shirt"),
      ("color", .str "white"), ("material", .str "cotton"), ("size", .str "M"),
      ("style", .arr [.str "casual", .str "minimalist"]),
      ("weather_suitability", .arr [.str "warm", .str "hot", .str "mild"]),
      ("occasion_suitability", .arr [.str "casual"]), ("is_clean", .bool true),
      ("metadata", .obj [])],
    .obj [("item_id", .str "bottom2"), ("item_type", .str "bottom"),
      ("name", .str "Dark Blue Jeans"), ("color", .str "blue"), ("material", .str "denim"),
      ("size", .str "32"), ("style", .arr [.str "casual"]),
      ("weather_suitability", .arr [.str "cool", .str "mild", .str "warm"]),
      ("occasion_suitability", .arr [.str "casual"]), ("is_clean", .bool true),
      ("metadata", .obj [])],
    .obj [("item_id", .str "shoes2"), ("item_type", .str "shoes"),
      ("name", .str "White Sneakers"), ("color", .str "white"), ("material", .str "synthetic"),
      ("size", .str "42"), ("style", .arr [.str "casual", .str "minimalist"]),
      ("weather_suitability", .arr [.str "mild", .str "warm", .str "hot"]),
      ("occasion_suitability", .arr [.str "casual"]), ("is_clean", .bool true),
      ("metadata", .obj [])],
    .obj [("item_id", .str "outer1"), ("item_type", .str "outerwear"),
      ("name", .str "Navy Raincoat"), ("color", .str "navy"), ("material", .str "polyester"),
      ("size", .str "M"), ("style", .arr [.str "casual", .str "classic"]),
      ("weather_suitability", .arr [.str "rainy", .str "cool", .str "cold"]),
      ("occasion_suitability", .arr [.str "casual", .str "business_casual"]),
      ("is_clean", .bool true), ("metadata", .obj [])],
    .obj [("item_id", .str "top3"), ("item_type", .str "top"), ("name", .str "Black Silk Shirt"),
      ("color", .str "black"), ("material", .str "silk"), ("size", .str "M"),
      ("style", .arr [.str "party", .str "formal"]),
      ("weather_suitability", .arr [.str "mild", .str "warm"]),
      ("occasion_suitability", .arr [.str "party", .str "formal"]), ("is_clean", .bool true),
      ("metadata", .obj [])],
    .obj [("item_id", .str "bottom3"), ("item_type", .str "bottom"),
      ("name", .str "Slim Chinos"), ("color", .str "khaki"), ("material", .str "cotton"),
      ("size", .str "32"), ("style", .arr [.str "casual", .str "smart_casual"]),
      ("weather_suitability", .arr [.str "mild", .str "warm"]),
      ("occasion_suitability", .arr [.str "party", .str "business_casual", .str "casual"]),
      ("is_clean", .bool true), ("metadata", .obj [])],
    .obj [("item_id", .str "shoes3"), ("item_type", .str "shoes"),
      ("name", .str "Brown Brogues"), ("color", .str "brown"), ("material", .str "leather"),
      ("size", .str "42"), ("style", .arr [.str "classic", .str "business"]),
      ("weather_suitability", .arr [.str "mild", .str "cool"]),
      ("occasion_suitability", .arr [.str "business_casual", .str "party"]),
      ("is_clean", .bool true), ("metadata", .obj [])],
    .obj [("item_id", .str "top4"), ("item_type", .str "top"),
      ("name", .str "Moisture-Wicking Tee"), ("color", .str "gray"),
      ("material", .str "polyester"), ("size", .str "M"), ("style", .arr [.str "sport"]),
      ("weather_suitability", .arr [.str "warm", .str "hot"]),
      ("occasion_suitability", .arr [.str "sporty"]), ("is_clean", .bool true),
      ("metadata", .obj [])],
    .obj [("item_id", .str "bottom4"), ("item_type", .str "bottom"),
      ("name", .str "Running Shorts"), ("color", .str "black"), ("material", .str "synthetic"),
      ("size", .str "M"), ("style", .arr [.str "sport"]),
      ("weather_suitability", .arr [.str "warm", .str "hot"]),
      ("occasion_suitability", .arr [.str "sporty"]), ("is_clean", .bool true),
      ("metadata", .obj [])],
    .obj [("item_id", .str "shoes4"), ("item_type", .str "shoes"),
      ("name", .str "Running Shoes"), ("color", .str "blue"), ("material", .str "mesh"),
      ("size", .str "42"), ("style", .arr [.str "sport"]),
      ("weather_suitability", .arr [.str "mild", .str "warm", .str "hot"]),
      ("occasion_suitability", .arr [.str "sporty"]), ("is_clean", .bool true),
      ("metadata", .obj [])],
    .obj [("item_id", .str "shoes5"), ("item_type", .str "shoes"),
      ("name", .str "Black Chelsea Boots"), ("color", .str "black"),
      ("material", .str "leather"), ("size", .str "42"), ("style", .arr [.str "classic"]),
      ("weather_suitability", .arr [.str "cold", .str "cool", .str "mild"]),
      ("occasion_suitability", .arr [.str "business_casual", .str "casual", .str "party"]),
      ("is_clean", .bool true), ("metadata", .obj [])],
    .obj [("item_id", .str "top5"), ("item_type", .str "top"), ("name", .str "Navy Dress Shirt"),
      ("color", .str "navy"), ("material", .str "cotton"), ("size", .str "M"),
      ("style", .arr [.str "formal", .str "evening"]),
      ("weather_suitability", .arr [.str "cool", .str "mild", .str "warm"]),
      ("occasion_suitability", .arr [.str "evening", .str "formal"]), ("is_clean", .bool true),
      ("metadata", .obj [])],
    .obj [("item_id", .str "bottom5"), ("item_type", .str "bottom"),
      ("name", .str "Charcoal Dress Pants"), ("color", .str "gray"), ("material", .str "wool"),
      ("size", .str "32"), ("style", .arr [.str "formal", .str "evening"]),
      ("weather_suitability", .arr [.str "cool", .str "mild"]),
      ("occasion_suitability", .arr [.str "evening", .str "formal"]), ("is_clean", .bool true),
      ("metadata", .obj [])],
    .obj [("item_id", .str "shoes6"), ("item_type", .str "shoes"),
      ("name", .str "Patent Leather Oxfords"), ("color", .str "black"),
      ("material", .str "leather"), ("size", .str "42"),
      ("style", .arr [.str "formal", .str "evening"]),
      ("weather_suitability", .arr [.str "cool", .str "mild", .str "warm"]),
      ("occasion_suitability", .arr [.str "evening", .str "formal"]), ("is_clean", .bool true),
      ("metadata", .obj [])],
    .obj [("item_id", .str "top6"), ("item_type", .str "top"),
      ("name", .str "White Linen Shirt"), ("color", .str "white"), ("material", .str "linen"),
      ("size", .str "M"), ("style", .arr [.str "casual", .str "beach"]),
      ("weather_suitability", .arr [.str "warm", .str "hot"]),
      ("occasion_suitability", .arr [.str "beach", .str "casual"]), ("is_clean", .bool true),
      ("metadata", .obj [])],
    .obj [("item_id", .str "bottom6"), ("item_type", .str "bottom"),
      ("name", .str "Beige Shorts"), ("color", .str "beige"), ("material", .str "cotton"),
      ("size", .str "M"), ("style", .arr [.str "casual", .str "beach"]),
      ("weather_suitability", .arr [.str "warm", .str "hot"]),
      ("occasion_suitability", .arr [.str "beach", .str "casual"]), ("is_clean", .bool true),
      ("metadata", .obj [])],
    .obj [("item_id", .str "shoes7"), ("item_type", .str "shoes"), ("name", .str "Flip Flops"),
      ("color", .str "black"), ("material", .str "rubber"), ("size", .str "42"),
      ("style", .arr [.str "casual", .str "beach"]),
      ("weather_suitability", .arr [.str "warm", .str "hot"]),
      ("occasion_suitability", .arr [.str "beach"]), ("is_clean", .bool true),
      ("metadata", .obj [])],
    .obj [("item_id", .str "shoes8"), ("item_type", .str "shoes"), ("name", .str "Rain Boots"),
      ("color", .str "black"), ("material", .str "rubber"), ("size", .str "42"),
      ("style", .arr [.str "casual", .str "classic"]),
      ("weather_suitability", .arr [.str "rainy", .str "cold", .str "cool"]),
      ("occasion_suitability", .arr [.str "casual", .str "business_casual"]),
      ("is_clean", .bool true), ("metadata", .obj [])],
    .obj [("item_id", .str "outer2"), ("item_type", .str "outerwear"),
      ("name", .str "Wool Overcoat"), ("color", .str "black"), ("material", .str "wool"),
      ("size", .str "M"), ("style", .arr [.str "classic", .str "formal"]),
      ("weather_suitability", .arr [.str "cold", .str "cool"]),
      ("occasion_suitability", .arr [.str "formal", .str "evening", .str "business_casual"]),
      ("is_clean", .bool true), ("metadata", .obj [])],
    .obj [("item_id", .str "top_casual_cold"), ("item_type", .str "top"),
      ("name", .str "Fleece Hoodie"), ("color", .str "navy"), ("material", .str "fleece"),
      ("size", .str "M"), ("style", .arr [.str "casual"]),
      ("weather_suitability", .arr [.str "cold", .str "cool"]),
      ("occasion_suitability", .arr [.str "casual"]), ("is_clean", .bool true),
      ("metadata", .obj [])],
    .obj [("item_id", .str "outer_casual_cold"), ("item_type", .str "outerwear"),
      ("name", .str "Puffer Jacket"), ("color", .str "black"), ("material", .str "synthetic"),
      ("size", .str "M"), ("style", .arr [.str "casual"]),
      ("weather_suitability", .arr [.str "cold", .str "cool"]),
      ("occasion_suitability", .arr [.str "casual"]), ("is_clean", .bool true),
      ("metadata", .obj [])],
    .obj [("item_id", .str "acc1"), ("item_type", .str "accessory"),
      ("name", .str "Leather Belt"), ("color", .str "black"), ("material", .str "leather"),
      ("size", .str "L"), ("style", .arr [.str "classic", .str "minimalist"]),
      ("weather_suitability", .arr [.str "cool", .str "mild", .str "warm", .str "hot", .str "cold", .str "rainy"]),
      ("occasion_suitability", .arr [.str "business_casual", .str "casual", .str "formal", .str "party"]),
      ("is_clean", .bool true), ("metadata", .obj [])],
    .obj [("item_id", .str "top_formal_all"), ("item_type", .str "top"),
      ("name", .str "All-Weather Formal Shirt"), ("color", .str "white"),
      ("material", .str "performance_cotton"), ("size", .str "M"),
      ("style", .arr [.str "formal"]),
      ("weather_suitability", .arr [.str "cool", .str "mild", .str "warm", .str "hot", .str "cold", .str "rainy"]),
      ("occasion_suitability", .arr [.str "formal"]), ("is_clean", .bool true),
      ("metadata", .obj [])],
    .obj [("item_id", .str "bottom_formal_all"), ("item_type", .str "bottom"),
      ("name", .str "All-Weather Formal Trousers"), ("color", .str "charcoal"),
      ("material", .str "tech_wool"), ("size", .str "32"), ("style", .arr [.str "formal"]),
      ("weather_suitability", .arr [.str "cool", .str "mild", .str "warm", .str "hot", .str "cold", .str "rainy"]),
      ("occasion_suitability", .arr [.str "formal"]), ("is_clean", .bool true),
      ("metadata", .obj [])],
    .obj [("item_id", .str "shoes_formal_all"), ("item_type", .str "shoes"),
      ("name", .str "Waterproof Formal Oxfords"), ("color", .str "black"),
      ("material", .str "treated_leather"), ("size", .str "42"), ("style", .arr [.str "formal"]),
      ("weather_suitability", .arr [.str "cool", .str "mild", .str "warm", .str "hot", .str "cold", .str "rainy"]),
      ("occasion_suitability", .arr [.str "formal"]), ("is_clean", .bool true),
      ("metadata", .obj [])],
    .obj [("item_id", .str "top_biz_all"), ("item_type", .str "top"),
      ("name", .str "All-Weather Oxford"), ("color", .str "light_blue"),
      ("material", .str "performance_cotton"), ("size", .str "M"),
      ("style", .arr [.str "business", .str "classic"]),
      ("weather_suitability", .arr [.str "cool", .str "mild", .str "warm", .str "hot", .str "cold", .str "rainy"]),
      ("occasion_suitability", .arr [.str "business_casual"]), ("is_clean", .bool true),
      ("metadata", .obj [])],
    .obj [("item_id", .str "bottom_biz_all"), ("item_type", .str "bottom"),
      ("name", .str "Stretch Chinos"), ("color", .str "navy"), ("material", .str "tech_cotton"),
      ("size", .str "32"), ("style", .arr [.str "business", .str "classic"]),
      ("weather_suitability", .arr [.str "cool", .str "mild", .str "warm", .str "hot", .str "cold", .str "rainy"]),
      ("occasion_suitability", .arr [.str "business_casual"]), ("is_clean", .bool true),
      ("metadata", .obj [])],
    .obj [("item_id", .str "shoes_biz_all"), ("item_type", .str "shoes"),
      ("name", .str "All-Weather Derbies"), ("color", .str "brown"),
      ("material", .str "treated_leather"), ("size", .str "42"),
      ("style", .arr [.str "classic", .str "business"]),
      ("weather_suitability", .arr [.str "cool", .str "mild", .str "warm", .str "hot", .str "cold", .str "rainy"]),
      ("occasion_suitability", .arr [.str "business_casual"]), ("is_clean", .bool true),
      ("metadata", .obj [])],
    .obj [("item_id", .str "top_casual_all"), ("item_type", .str "top"),
      ("name", .str "Tech Tee"), ("color", .str "gray"), ("material", .str "performance_poly"),
      ("size", .str "M"), ("style", .arr [.str "casual", .str "minimalist"]),
      ("weather_suitability", .arr [.str "cool", .str "mild", .str "warm", .str "hot", .str "cold", .str "rainy"]),
      ("occasion_suitability", .arr [.str "casual"]), ("is_clean", .bool true),
      ("metadata", .obj [])],
    .obj [("item_id", .str "bottom_casual_all"), ("item_type", .str "bottom"),
      ("name", .str "All-Weather Jeans"), ("color", .str "dark_blue"),
      ("material", .str "tech_denim"), ("size", .str "32"), ("style", .arr [.str "casual"]),
      ("weather_suitability", .arr [.str "cool", .str "mild", .str "warm", .str "hot", .str "cold", .str "rainy"]),
      ("occasion_suitability", .arr [.str "casual"]), ("is_clean", .bool true),
      ("metadata", .obj [])],
    .obj [("item_id", .str "shoes_casual_all"), ("item_type", .str "shoes"),
      ("name", .str "Weatherproof Sneakers"), ("color", .str "white"),
      ("material", .str "treated_mesh"), ("size", .str "42"),
      ("style", .arr [.str "casual", .str "minimalist"]),
      ("weather_suitability", .arr [.str "cool", .str "mild", .str "warm", .str "hot", .str "cold", .str "rainy"]),
      ("occasion_suitability", .arr [.str "casual"]), ("is_clean", .bool true),
      ("metadata", .obj [])],
    .obj [("item_id", .str "top_sporty_all"), ("item_type", .str "top"),
      ("name", .str "All-Weather Training Tee"), ("color", .str "black"),
      ("material", .str "performance_poly"), ("size", .str "M"), ("style", .arr [.str "sport"]),
      ("weather_suitability", .arr [.str "cool", .str "mild", .str "warm", .str "hot", .str "cold", .str "rainy"]),
      ("occasion_suitability", .arr [.str "sporty"]), ("is_clean", .bool true),
      ("metadata", .obj [])],
    .obj [("item_id", .str "bottom_sporty_all"), ("item_type", .str "bottom"),
      ("name", .str "All-Weather Joggers"), ("color", .str "black"),
      ("material", .str "tech_poly"), ("size", .str "M"), ("style", .arr [.str "sport"]),
      ("weather_suitability", .arr [.str "cool", .str "mild", .str "warm", .str "hot", .str "cold", .str "rainy"]),
      ("occasion_suitability", .arr [.str "sporty"]), ("is_clean", .bool true),
      ("metadata", .obj [])],
    .obj [("item_id", .str "shoes_sporty_all"), ("item_type", .str "shoes"),
      ("name", .str "Trail Running Shoes"), ("color", .str "gray"),
      ("material", .str "treated_mesh"), ("size", .str "42"), ("style", .arr [.str "sport"]),
      ("weather_suitability", .arr [.str "cool", .str "mild", .str "warm", .str "hot", .str "cold", .str "rainy"]),
      ("occasion_suitability", .arr [.str "sporty"]), ("is_clean", .bool true),
      ("metadata", .obj [])],
    .obj [("item_id", .str "top_evening_all"), ("item_type", .str "top"),
      ("name", .str "Evening Dress Shirt (All-Weather)"), ("color", .str "black"),
      ("material", .str "performance_cotton"), ("size", .str "M"),
      ("style", .arr [.str "evening", .str "formal"]),
      ("weather_suitability", .arr [.str "cool", .str "mild", .str "warm", .str "hot", .str "cold", .str "rainy"]),
      ("occasion_suitability", .arr [.str "evening"]), ("is_clean", .bool true),
      ("metadata", .obj [])],
    .obj [("item_id", .str "bottom_evening_all"), ("item_type", .str "bottom"),
      ("name", .str "Evening Dress Trousers"), ("color", .str "black"),
      ("material", .str "tech_wool"), ("size", .str "32"),
      ("style", .arr [.str "evening", .str "formal"]),
      ("weather_suitability", .arr [.str "cool", .str "mild", .str "warm", .str "hot", .str "cold", .str "rainy"]),
      ("occasion_suitability", .arr [.str "evening"]), ("is_clean", .bool true),
      ("metadata", .obj [])],
    .obj [("item_id", .str "shoes_evening_all"), ("item_type", .str "shoes"),
      ("name", .str "Evening Oxfords (Waterproof)"), ("color", .str "black"),
      ("material", .str "treated_leather"), ("size", .str "42"),
      ("style", .arr [.str "evening", .str "formal"]),
      ("weather_suitability", .arr [.str "cool", .str "mild", .str "warm", .str "hot", .str "cold", .str "rainy"]),
      ("occasion_suitability", .arr [.str "evening"]), ("is_clean", .bool true),
      ("metadata", .obj [])],
    .obj [("item_id", .str "top_beach_all"), ("item_type", .str "top"),
      ("name", .str "All-Weather Beach Shirt"), ("color", .str "white"),
      ("material", .str "quick_dry"), ("size", .str "M"),
      ("style", .arr [.str "beach", .str "casual"]),
      ("weather_suitability", .arr [.str "cool", .str "mild", .str "warm", .str "hot", .str "cold", .str "rainy"]),
      ("occasion_suitability", .arr [.str "beach"]), ("is_clean", .bool true),
      ("metadata", .obj [])],
    .obj [("item_id", .str "bottom_beach_all"), ("item_type", .str "bottom"),
      ("name", .str "Hybrid Swim Shorts"), ("color", .str "navy"),
      ("material", .str "quick_dry"), ("size", .str "M"),
      ("style", .arr [.str "beach", .str "casual"]),
      ("weather_suitability", .arr [.str "cool", .str "mild", .str "warm", .str "hot", .str "cold", .str "rainy"]),
      ("occasion_suitability", .arr [.str "beach"]), ("is_clean", .bool true),
      ("metadata", .obj [])],
    .obj [("item_id", .str "shoes_beach_all"), ("item_type", .str "shoes"),
      ("name", .str "Water Sandals"), ("color", .str "black"), ("material", .str "rubber"),
      ("size", .str "42"), ("style", .arr [.str "beach", .str "casual"]),
      ("weather_suitability", .arr [.str "cool", .str "mild", .str "warm", .str "hot", .str "cold", .str "rainy"]),
      ("occasion_suitability", .arr [.str "beach"]), ("is_clean", .bool true),
      ("metadata", .obj [])],
    .obj [("item_id", .str "top_party_all"), ("item_type", .str "top"),
      ("name", .str "All-Weather Party Shirt"), ("color", .str "burgundy"),
      ("material", .str "performance_blend"), ("size", .str "M"),
      ("style", .arr [.str "party", .str "classic"]),
      ("weather_suitability", .arr [.str "cool", .str "mild", .str "warm", .str "hot", .str "cold", .str "rainy"]),
      ("occasion_suitability", .arr [.str "party"]), ("is_clean", .bool true),
      ("metadata", .obj [])],
    .obj [("item_id", .str "bottom_party_all"), ("item_type", .str "bottom"),
      ("name", .str "Party Trousers"), ("color", .str "black"), ("material", .str "tech_wool"),
      ("size", .str "32"), ("style", .arr [.str "party", .str "classic"]),
      ("weather_suitability", .arr [.str "cool", .str "mild", .str "warm", .str "hot", .str "cold", .str "rainy"]),
      ("occasion_suitability", .arr [.str "party"]), ("is_clean", .bool true),
      ("metadata", .obj [])],
    .obj [("item_id", .str "shoes_party_all"), ("item_type", .str "shoes"),
      ("name", .str "Party Loafers (Weatherproof)"), ("color", .str "black"),
      ("material", .str "treated_leather"), ("size", .str "42"),
      ("style", .arr [.str "party", .str "classic"]),
      ("weather_suitability", .arr [.str "cool", .str "mild", .str "warm", .str "hot", .str "cold", .str "rainy"]),
      ("occasion_suitability", .arr [.str "party"]), ("is_clean", .bool true),
      ("metadata", .obj [])]]

/-- The elements of an array. -/
def elements : JsVal → List JsVal
  | .arr xs => xs
  | _ => []

/-- Whether the array property `key` of an item lists the string `tag`. -/
def listsTag (it : JsVal) (key tag : String) : Bool :=
  match field it key with
  | .arr tags =>
    tags.any (fun t =>
      match t with
      | .str s => s == tag
      | _ => false)
  | _ => false

/-- Whether an item has the given type, is clean, and lists the occasion and the
weather among its suitabilities. -/
def suits (it : JsVal) (item_type occasion weather : String) : Bool :=
  (match field it "item_type" with
    | .str s => s == item_type
    | _ => false) &&
  (match field it "is_clean" with
    | .bool b => b
    | _ => false) &&
  listsTag it "occasion_suitability" occasion &&
  listsTag it "weather_suitability" weather

/-- The strings of an array. -/
def stringsOf : List JsVal → List String
  | [] => []
  | .str s :: rest => s :: stringsOf rest
  | _ :: rest => stringsOf rest

/-- The tags the items list under the array property `key`, with repetitions. -/
def tagsOf (inventory : List JsVal) (key : String) : List String :=
  match inventory with
  | [] => []
  | it :: rest => stringsOf (elements (field it key)) ++ tagsOf rest key

/-- The occasion tags of the claim. -/
def occasionTags : List String :=
  ["formal", "business_casual", "casual", "sporty", "evening", "beach", "party"]

/-- The weather tags of the claim. -/
def weatherTags : List String := ["cool", "mild", "warm", "hot", "cold", "rainy"]

/-- The item types an outfit needs. -/
def coreTypes : List String := ["top", "bottom", "shoes"]

/-- The check of the fixture: every occasion, weather and core type has a clean
item that suits. -/
def coversAll (inventory : List JsVal) : Bool :=
  occasionTags.all (fun occasion =>
    weatherTags.all (fun weather =>
      coreTypes.all (fun item_type =>
        inventory.any (fun it => suits it item_type occasion weather))))

/-! ## Facts about Numbers -/

namespace JsNum

theorem bitLenAux_zero (fuel : Nat) : bitLenAux fuel 0 = 0 := by
  cases fuel <;> simp [bitLenAux]

theorem bitLenAux_bounds : ∀ (fuel n : Nat), n ≤ fuel → n ≠ 0 →
    2 ^ (bitLenAux fuel n - 1) ≤ n ∧ n < 2 ^ bitLenAux fuel n := by
  intro fuel
  induction fuel with
  | zero => intro n h1 h2; omega
  | succ fuel ih =>
    intro n hle hn
    simp only [bitLenAux, hn, if_false]
    by_cases h2 : n / 2 = 0
    · have h1 : n = 1 := by omega
      subst h1
      simp [bitLenAux_zero]
    · obtain ⟨ihl, ihu⟩ := ih (n / 2) (by omega) h2
      have hpos : bitLenAux fuel (n / 2) ≠ 0 := by
        intro h0
        rw [h0] at ihu
        simp at ihu
        exact h2 ihu
      obtain ⟨L, hL⟩ := Nat.exists_eq_succ_of_ne_zero hpos
      rw [hL] at ihl ihu ⊢
      simp only [Nat.succ_eq_add_one, Nat.add_sub_cancel] at ihl ⊢
      rw [pow_succ] at ihu ⊢
      rw [pow_succ (n := L + 1)]
      constructor <;> omega

/-- The binary digits of a positive `n` number `bitLen n`. -/
theorem bitLen_bounds {n : Nat} (hn : n ≠ 0) :
    2 ^ (bitLen n - 1) ≤ n ∧ n < 2 ^ bitLen n :=
  bitLenAux_bounds n n (le_refl n) hn

theorem bitLen_pos {n : Nat} (hn : n ≠ 0) : 0 < bitLen n := by
  by_contra h
  have h0 : bitLen n = 0 := by omega
  have := (bitLen_bounds hn).2
  rw [h0] at this
  omega

theorem bitLen_le_of_lt {n L : Nat} (h : n < 2 ^ L) : bitLen n ≤ L := by
  by_cases hn : n = 0
  · subst hn; simp [bitLen, bitLenAux_zero]
  · have hb := (bitLen_bounds hn).1
    have hp := bitLen_pos hn
    have h1 : 2 ^ (bitLen n - 1) < 2 ^ L := lt_of_le_of_lt hb h
    have h2 := (Nat.pow_lt_pow_iff_right (by norm_num : 1 < 2)).1 h1
    omega

theorem stripAux_fst_ne_zero : ∀ (fuel m : Nat) (e : Int), m ≠ 0 → (stripAux fuel m e).1 ≠ 0 := by
  intro fuel
  induction fuel with
  | zero => intro m e hm; simpa [stripAux] using hm
  | succ fuel ih =>
    intro m e hm
    unfold stripAux
    split
    · rename_i h
      exact ih (m / 2) (e + 1) (by omega)
    · exact hm

/-- With `j` factors of two taken out of it, a magnitude is unchanged. -/
theorem stripAux_spec : ∀ (fuel m : Nat) (e : Int),
    ∃ j : Nat, stripAux fuel m e = (m / 2 ^ j, e + j) ∧ 2 ^ j ∣ m := by
  intro fuel
  induction fuel with
  | zero => intro m e; exact ⟨0, by simp [stripAux], by simp⟩
  | succ fuel ih =>
    intro m e
    unfold stripAux
    split
    · rename_i h
      obtain ⟨j, hj, hd⟩ := ih (m / 2) (e + 1)
      refine ⟨j + 1, ?_, ?_⟩
      · rw [hj, Nat.div_div_eq_div_mul, pow_succ, Nat.mul_comm]
        simp only [Prod.mk.injEq, true_and]
        push_cast
        ring
      · have h2 : 2 ∣ m := Nat.dvd_of_mod_eq_zero h.1
        obtain ⟨c, hc⟩ := hd
        obtain ⟨b, hb⟩ := h2
        refine ⟨c, ?_⟩
        have : m / 2 = b := by omega
        rw [this] at hc
        rw [hb, hc, pow_succ]
        ring
    · exact ⟨0, by simp, by simp⟩

/-- A nonzero magnitude does not become a zero. -/
theorem mkFin_truthy {neg : Bool} {m : Nat} {e : Int} (hm : m ≠ 0) :
    (mkFin neg m e).truthy = true := by
  unfold mkFin
  simp only [hm, if_false]
  split
  · rfl
  · simpa [truthy] using stripAux_fst_ne_zero m m e hm

/-- A nonzero magnitude below `2^1024` becomes a finite Number with the same
magnitude. -/
theorem mkFin_spec (neg : Bool) {m : Nat} (e : Int) (L : Nat) (hm : m ≠ 0)
    (hL : m < 2 ^ L) (hsmall : e + L ≤ 1024) :
    ∃ (m1 j : Nat), mkFin neg m e = fin neg m1 (e + j) ∧ m1 * 2 ^ j = m ∧ m1 ≠ 0 := by
  obtain ⟨j, hj, hd⟩ := stripAux_spec m m e
  have hmul : m / 2 ^ j * 2 ^ j = m := Nat.div_mul_cancel hd
  have hne : m / 2 ^ j ≠ 0 := by
    intro h0
    rw [h0] at hmul
    omega
  have hlt : m / 2 ^ j < 2 ^ (L - j) ∧ j ≤ L := by
    have hjL : j ≤ L := by
      by_contra hcon
      have h1 : 2 ^ L < 2 ^ j := Nat.pow_lt_pow_right (by norm_num) (by omega)
      have h2 : 2 ^ j ≤ m := Nat.le_of_dvd (by omega) hd
      omega
    refine ⟨?_, hjL⟩
    rw [Nat.div_lt_iff_lt_mul (by positivity), ← pow_add]
    have : L - j + j = L := by omega
    rw [this]
    exact hL
  have hbl := bitLen_le_of_lt hlt.1
  refine ⟨m / 2 ^ j, j, ?_, hmul, hne⟩
  unfold mkFin
  simp only [hm, if_false, hj]
  rw [if_neg]
  omega

/-- A finite result of `mkFin` has the sign and the magnitude it was given. -/
theorem mkFin_value {neg neg1 : Bool} {m m1 : Nat} {e e1 : Int}
    (h : mkFin neg m e = fin neg1 m1 e1) :
    neg1 = neg ∧ (m1 : ℚ) * (2 : ℚ) ^ e1 = (m : ℚ) * (2 : ℚ) ^ e := by
  unfold mkFin at h
  split at h
  · rename_i h0
    injection h with h1 h2 h3
    subst h0 h2
    exact ⟨h1.symm, by simp⟩
  · obtain ⟨j, hj, c, hc⟩ := stripAux_spec m m e
    simp only [hj] at h
    split at h
    · cases h
    · injection h with h1 h2 h3
      refine ⟨h1.symm, ?_⟩
      rw [← h2, ← h3]
      have hdiv : m / 2 ^ j = c := by
        rw [hc]
        exact Nat.mul_div_cancel_left c (by positivity)
      rw [hdiv, zpow_add₀ (by norm_num : (2 : ℚ) ≠ 0), zpow_natCast]
      have hcq : (m : ℚ) = (2 : ℚ) ^ j * (c : ℚ) := by exact_mod_cast hc
      rw [hcq]
      ring

theorem roundDyadic_zero_mag (neg : Bool) (e : Int) : roundDyadic neg 0 e = fin neg 0 0 := by
  unfold roundDyadic
  simp only [bitLen, bitLenAux_zero]
  split
  · simp [mkFin]
  · have hp : ∀ k : Nat,
        ¬ (2 ^ k < 2 * (0 % 2 ^ k) ∨ (2 * (0 % 2 ^ k) = 2 ^ k ∧ 0 / 2 ^ k % 2 = 1)) := by
      intro k
      have : 0 < 2 ^ k := by positivity
      simp
    rw [if_neg (hp _)]
    simp [mkFin]

/-- The Number of a positive integer is not a zero. -/
theorem roundDyadic_nat_truthy {n : Nat} (hn : n ≠ 0) :
    (roundDyadic false n 0).truthy = true := by
  unfold roundDyadic
  simp only []
  split
  · exact mkFin_truthy hn
  · rename_i hlt
    have hb := (bitLen_bounds hn).1
    have hk : ((max ((0 : Int) + bitLen n - 53) (-1074) - 0).toNat) = bitLen n - 53 := by
      omega
    have h53 : 53 < bitLen n := by omega
    have hq : n / 2 ^ (bitLen n - 53) ≠ 0 := by
      have h1 : 2 ^ (bitLen n - 53) ≤ 2 ^ (bitLen n - 1) :=
        Nat.pow_le_pow_right (by norm_num) (by omega)
      have h2 : 0 < n / 2 ^ (bitLen n - 53) :=
        Nat.div_pos (le_trans h1 hb) (by positivity)
      omega
    rw [hk]
    split
    · exact mkFin_truthy (Nat.succ_ne_zero _)
    · exact mkFin_truthy hq

theorem two_zpow_of_nonneg {e : Int} (he : 0 ≤ e) : (2 : ℚ) ^ e = ((2 ^ e.toNat : Nat) : ℚ) := by
  obtain ⟨n, rfl⟩ := Int.eq_ofNat_of_zero_le he
  simp

theorem two_zpow_of_neg {e : Int} (he : e < 0) :
    (2 : ℚ) ^ e = 1 / ((2 ^ (-e).toNat : Nat) : ℚ) := by
  obtain ⟨n, hn⟩ := Int.exists_eq_neg_ofNat (le_of_lt he)
  subst hn
  simp [zpow_neg]

theorem value_of_nonneg (neg : Bool) (m : Nat) {e : Int} (he : 0 ≤ e) :
    value (fin neg m e) =
      (((if neg then -1 else 1) * ((m * 2 ^ e.toNat : Nat) : Int) : Int) : ℚ) := by
  simp only [value, two_zpow_of_nonneg he]
  cases neg <;> simp

theorem value_of_neg (neg : Bool) (m : Nat) {e : Int} (he : e < 0) :
    value (fin neg m e) =
      (if neg then -1 else 1) * (m : ℚ) * (1 / ((2 ^ (-e).toNat : Nat) : ℚ)) := by
  simp only [value, two_zpow_of_neg he]

theorem value_shift (m1 j : Nat) (e : Int) :
    value (fin false m1 (e + j)) = ((m1 * 2 ^ j : Nat) : ℚ) * (2 : ℚ) ^ e := by
  simp only [value, Bool.false_eq_true, if_false, one_mul]
  rw [zpow_add₀ (by norm_num : (2 : ℚ) ≠ 0), zpow_natCast]
  push_cast
  ring

theorem scaled_le (n c s : Nat) (h : n ≤ c * 2 ^ s) :
    ((n : Nat) : ℚ) * (2 : ℚ) ^ (-(s : Int)) ≤ c := by
  have hq : (n : ℚ) ≤ c * 2 ^ s := by exact_mod_cast h
  have hpos : (0 : ℚ) < 2 ^ s := by positivity
  rw [zpow_neg, zpow_natCast, ← div_eq_mul_inv, div_le_iff₀ hpos]
  exact hq

/-- A positive magnitude `m * 2^e` that is at most 1 has `e ≤ 0` and
`m ≤ 2^(-e)`. -/
theorem le_one_bounds {m : Nat} {e : Int} (hm : m ≠ 0)
    (h : value (fin false m e) ≤ 1) : e ≤ 0 ∧ m ≤ 2 ^ (-e).toNat := by
  simp only [value, Bool.false_eq_true, if_false, one_mul] at h
  have hm1 : (1 : ℚ) ≤ m := by exact_mod_cast Nat.one_le_iff_ne_zero.mpr hm
  have he : e ≤ 0 := by
    by_contra hcon
    have h1 : (1 : ℚ) < (2 : ℚ) ^ e := one_lt_zpow₀ (by norm_num) (by omega)
    nlinarith
  refine ⟨he, ?_⟩
  obtain ⟨s, hs⟩ : ∃ s : Nat, e = -(s : Int) := ⟨(-e).toNat, by omega⟩
  have hs2 : (-e).toNat = s := by omega
  rw [hs2]
  rw [hs, zpow_neg, zpow_natCast, ← div_eq_mul_inv, div_le_iff₀ (by positivity)] at h
  have : (m : ℚ) ≤ ((2 ^ s : Nat) : ℚ) := by
    push_cast
    linarith
  exact_mod_cast this

theorem floor_int_add_half (z : Int) : ⌊(z : ℚ) + 1 / 2⌋ = z := by
  rw [Int.floor_eq_iff]
  constructor <;> linarith

/-- Rounding half up a positive fraction `m / d`, in integer arithmetic. -/
theorem floor_pos_half (m d : Nat) (hd : 0 < d) :
    ⌊(m : ℚ) * (1 / (d : ℚ)) + 1 / 2⌋ = (((2 * m + d) / (2 * d) : Nat) : Int) := by
  have hdq : (0 : ℚ) < d := by exact_mod_cast hd
  have h1 := Nat.div_add_mod (2 * m + d) (2 * d)
  have h2 : (2 * m + d) % (2 * d) < 2 * d := Nat.mod_lt _ (by omega)
  generalize (2 * m + d) / (2 * d) = r at h1 h2 ⊢
  generalize (2 * m + d) % (2 * d) = s at h1 h2
  have h1q : (2 : ℚ) * d * r + s = 2 * m + d := by exact_mod_cast h1
  have h2q : (s : ℚ) < 2 * d := by exact_mod_cast h2
  have hs0 : (0 : ℚ) ≤ s := by positivity
  have hval : (m : ℚ) * (1 / (d : ℚ)) + 1 / 2 = (2 * m + d) / (2 * d) := by
    field_simp
    ring
  rw [hval, Int.floor_eq_iff]
  push_cast
  constructor
  · rw [le_div_iff₀ (by positivity)]
    nlinarith
  · rw [div_lt_iff₀ (by positivity)]
    nlinarith

/-- Rounding half up a negative fraction `-m / d`, in integer arithmetic. -/
theorem floor_neg_half (m d : Nat) (hd : 0 < d) :
    ⌊-1 * (m : ℚ) * (1 / (d : ℚ)) + 1 / 2⌋ = -(((2 * m + d - 1) / (2 * d) : Nat) : Int) := by
  have hdq : (0 : ℚ) < d := by exact_mod_cast hd
  have h1 := Nat.div_add_mod (2 * m + d - 1) (2 * d)
  have h2 : (2 * m + d - 1) % (2 * d) < 2 * d := Nat.mod_lt _ (by omega)
  generalize (2 * m + d - 1) / (2 * d) = r at h1 h2 ⊢
  generalize (2 * m + d - 1) % (2 * d) = s at h1 h2
  have h1' : 2 * d * r + s + 1 = 2 * m + d := by omega
  have h1q : (2 : ℚ) * d * r + s + 1 = 2 * m + d := by exact_mod_cast h1'
  have h2' : s + 1 ≤ 2 * d := h2
  have h2q : (s : ℚ) + 1 ≤ 2 * d := by exact_mod_cast h2'
  have hs0 : (0 : ℚ) ≤ s := by positivity
  have hval : -1 * (m : ℚ) * (1 / (d : ℚ)) + 1 / 2 = (d - 2 * m) / (2 * d) := by
    field_simp
    ring
  rw [hval, Int.floor_eq_iff]
  push_cast
  constructor
  · rw [le_div_iff₀ (by positivity)]
    nlinarith
  · rw [div_lt_iff₀ (by positivity)]
    nlinarith

/-- How a finite Number prints when it is an integer of at most `2^53`. -/
theorem toJsString_mkFin_int (fmt : JsNum → String) (neg : Bool) (r : Nat)
    (hr : r ≤ 2 ^ 53) :
    toJsString fmt (mkFin neg r 0) =
      if r = 0 then "0" else (if neg then "-" else "") ++ toString r := by
  by_cases h0 : r = 0
  · subst h0
    simp [mkFin, toJsString]
  · have h70 : r < 2 ^ 70 := lt_of_le_of_lt hr (by norm_num)
    obtain ⟨m1, j, hfin, hmul, hne⟩ := mkFin_spec neg 0 70 h0 h70 (by norm_num)
    have hr2 : r ≤ 9007199254740992 := by simpa using hr
    rw [hfin]
    simp only [toJsString, hne, h0, if_false, zero_add, Int.toNat_ofNat, Nat.cast_nonneg,
      true_and, Nat.reducePow, hmul, if_pos hr2]

/-- What `Math.round` of a finite Number prints: the integer nearest to its
value, a tie rounded up, in decimal digits when at most `2^53` in magnitude. -/
theorem toJsString_mathRound (fmt : JsNum → String) (neg : Bool) (m : Nat) (e : Int)
    (hk : (⌊value (fin neg m e) + 1 / 2⌋).natAbs ≤ 2 ^ 53) :
    toJsString fmt (mathRound (fin neg m e)) =
      (if ⌊value (fin neg m e) + 1 / 2⌋ < 0 then "-" else "") ++
        toString (⌊value (fin neg m e) + 1 / 2⌋).natAbs := by
  by_cases he : 0 ≤ e
  · rw [value_of_nonneg neg m he, floor_int_add_half] at hk ⊢
    simp only [mathRound, he, if_true, toJsString]
    by_cases hm : m = 0
    · subst hm
      simp
      rfl
    · have hpos : 0 < m * 2 ^ e.toNat := Nat.mul_pos (by omega) (by positivity)
      cases neg
      · simp only [Bool.false_eq_true, if_false, one_mul, Int.natAbs_ofNat] at hk ⊢
        have hk2 : m * 2 ^ e.toNat ≤ 9007199254740992 := by simpa using hk
        have hnlt : ¬ ((m * 2 ^ e.toNat : Nat) : Int) < 0 := by omega
        simp only [hm, if_false, true_and, Nat.reducePow, if_pos hk2, if_neg hnlt]
      · simp only [if_true, neg_mul, one_mul, Int.natAbs_neg, Int.natAbs_ofNat] at hk ⊢
        have hk2 : m * 2 ^ e.toNat ≤ 9007199254740992 := by simpa using hk
        have hlt : -((m * 2 ^ e.toNat : Nat) : Int) < 0 := by omega
        simp only [hm, if_false, true_and, Nat.reducePow, if_pos hk2, if_pos hlt]
  · have he2 : e < 0 := by omega
    have hd : 0 < 2 ^ (-e).toNat := by positivity
    rw [value_of_neg neg m he2] at hk ⊢
    simp only [mathRound, he, if_false]
    cases neg
    · simp only [Bool.false_eq_true, if_false, one_mul, Nat.sub_zero] at hk ⊢
      rw [floor_pos_half m _ hd] at hk ⊢
      simp only [Int.natAbs_ofNat] at hk ⊢
      rw [toJsString_mkFin_int fmt false _ hk]
      rw [if_neg (not_lt.mpr (Int.ofNat_nonneg _))]
      split
      · rename_i h0
        rw [h0]
        rfl
      · simp
    · simp only [if_true] at hk ⊢
      rw [floor_neg_half m _ hd] at hk ⊢
      simp only [Int.natAbs_neg, Int.natAbs_ofNat] at hk ⊢
      rw [toJsString_mkFin_int fmt true _ hk]
      split
      · rename_i h0
        rw [h0]
        rfl
      · rename_i h0
        have hlt : -((((2 * m + 2 ^ (-e).toNat - 1) / (2 * 2 ^ (-e).toNat) : Nat)) : Int) < 0 :=
          neg_neg_of_pos (Int.ofNat_pos.mpr (Nat.pos_of_ne_zero h0))
        simp only [if_true, if_pos hlt]

/-- Rounding is monotone against an integer bound below `2^53`: a magnitude
`n * 2^e` that is at most `c` rounds to a finite Number that is at most `c`. -/
theorem roundDyadic_le (n c : Nat) (e : Int) (he : e ≤ 0) (hc : c < 2 ^ 53)
    (h : n ≤ c * 2 ^ (-e).toNat) :
    ∃ m1 e1, roundDyadic false n e = fin false m1 e1 ∧ value (fin false m1 e1) ≤ c := by
  have hzero : value (fin false 0 0) ≤ (c : ℚ) := by simp [value]
  obtain ⟨s, hs⟩ : ∃ s : Nat, e = -(s : Int) := ⟨(-e).toNat, by omega⟩
  have hs2 : (-e).toNat = s := by omega
  rw [hs2] at h
  by_cases hn : n = 0
  · subst hn
    refine ⟨0, 0, ?_, hzero⟩
    unfold roundDyadic
    simp only [bitLen, bitLenAux_zero]
    split
    · simp [mkFin]
    · have hp : ∀ k : Nat, ¬ (2 ^ k < 2 * (0 % 2 ^ k) ∨ (2 * (0 % 2 ^ k) = 2 ^ k ∧ 0 / 2 ^ k % 2 = 1)) := by
        intro k
        have : 0 < 2 ^ k := by positivity
        simp
      rw [if_neg (hp _)]
      simp [mkFin]
  · have hb := bitLen_bounds hn
    have hlt : n < 2 ^ (53 + s) := by
      rw [pow_add]
      calc n ≤ c * 2 ^ s := h
        _ < 2 ^ 53 * 2 ^ s := Nat.mul_lt_mul_of_pos_right hc (by positivity)
    have hL : bitLen n ≤ 53 + s := bitLen_le_of_lt hlt
    unfold roundDyadic
    simp only []
    split
    · obtain ⟨m1, j, hfin, hmul, _⟩ := mkFin_spec false e (bitLen n) hn hb.2 (by omega)
      refine ⟨m1, e + j, hfin, ?_⟩
      rw [value_shift, hmul, hs]
      exact scaled_le n c s h
    · rename_i hte
      have ht : max (e + (bitLen n : Int) - 53) (-1074) ≤ 0 := by omega
      obtain ⟨u, hu⟩ : ∃ u : Nat, max (e + (bitLen n : Int) - 53) (-1074) = -(u : Int) :=
        ⟨(-(max (e + (bitLen n : Int) - 53) (-1074))).toNat, by omega⟩
      obtain ⟨k, hk⟩ : ∃ k : Nat, (max (e + (bitLen n : Int) - 53) (-1074) - e).toNat = k :=
        ⟨_, rfl⟩
      have hsk : s = u + k := by omega
      rw [hk, hu]
      have h2k : 0 < 2 ^ k := by positivity
      have hM : n ≤ (c * 2 ^ u) * 2 ^ k := by
        rw [Nat.mul_assoc, ← pow_add, ← hsk]
        exact h
      have hdm := Nat.div_add_mod n (2 ^ k)
      have hq : n / 2 ^ k ≤ c * 2 ^ u := by
        rw [Nat.div_le_iff_le_mul_add_pred h2k]
        have : c * 2 ^ u * 2 ^ k = 2 ^ k * (c * 2 ^ u) := Nat.mul_comm _ _
        omega
      have hq1 : 0 < n % 2 ^ k → n / 2 ^ k + 1 ≤ c * 2 ^ u := by
        intro hr
        by_contra hcon
        have heq : n / 2 ^ k = c * 2 ^ u := by omega
        rw [heq] at hdm
        have : c * 2 ^ u * 2 ^ k = 2 ^ k * (c * 2 ^ u) := Nat.mul_comm _ _
        omega
      have hfinish : ∀ q : Nat, q ≤ c * 2 ^ u →
          ∃ m1 e1, mkFin false q (-(u : Int)) = fin false m1 e1 ∧
            value (fin false m1 e1) ≤ c := by
        intro q hqle
        by_cases hq0 : q = 0
        · subst hq0
          exact ⟨0, 0, by simp [mkFin], hzero⟩
        · have hqlt : q < 2 ^ (53 + u) := by
            rw [pow_add]
            calc q ≤ c * 2 ^ u := hqle
              _ < 2 ^ 53 * 2 ^ u := Nat.mul_lt_mul_of_pos_right hc (by positivity)
          obtain ⟨m1, j, hfin, hmul, _⟩ :=
            mkFin_spec false (-(u : Int)) (53 + u) hq0 hqlt (by push_cast; omega)
          refine ⟨m1, -(u : Int) + j, hfin, ?_⟩
          rw [value_shift, hmul]
          exact scaled_le q c u hqle
      split
      · rename_i hup
        apply hfinish
        apply hq1
        rcases hup with hup | ⟨hup, _⟩ <;> omega
      · exact hfinish _ hq

/-- The rounding error of `roundDyadic` is at most half a unit in the last
place: `2^-53` relative to the exact magnitude, or `2^-1075` near zero. -/
theorem roundDyadic_error {neg neg1 : Bool} {n m1 : Nat} {e e1 : Int}
    (h : roundDyadic neg n e = fin neg1 m1 e1) :
    neg1 = neg ∧
      |(m1 : ℚ) * (2 : ℚ) ^ e1 - (n : ℚ) * (2 : ℚ) ^ e| ≤
        max ((n : ℚ) * (2 : ℚ) ^ e * (2 : ℚ) ^ (-53 : Int)) ((2 : ℚ) ^ (-1075 : Int)) := by
  have hmax0 : (0 : ℚ) ≤
      max ((n : ℚ) * (2 : ℚ) ^ e * (2 : ℚ) ^ (-53 : Int)) ((2 : ℚ) ^ (-1075 : Int)) :=
    le_max_of_le_right (by positivity)
  unfold roundDyadic at h
  simp only [] at h
  split at h
  · obtain ⟨h1, h2⟩ := mkFin_value h
    refine ⟨h1, ?_⟩
    rw [h2, sub_self, abs_zero]
    exact hmax0
  · rename_i hte
    obtain ⟨k, hk⟩ : ∃ k : Nat, (max (e + (bitLen n : Int) - 53) (-1074) - e).toNat = k :=
      ⟨_, rfl⟩
    obtain ⟨t, ht⟩ : ∃ t : Int, max (e + (bitLen n : Int) - 53) (-1074) = t := ⟨_, rfl⟩
    rw [hk, ht] at h
    have hek : e = t - k := by omega
    have hk1 : 1 ≤ k := by omega
    have h2k : (0 : ℚ) < (2 : ℚ) ^ k := by positivity
    have h2t : (0 : ℚ) < (2 : ℚ) ^ t := by positivity
    have hdm := Nat.div_add_mod n (2 ^ k)
    have hmod : n % 2 ^ k < 2 ^ k := Nat.mod_lt _ (by positivity)
    have hexact : (n : ℚ) * (2 : ℚ) ^ e =
        ((n / 2 ^ k : Nat) : ℚ) * (2 : ℚ) ^ t
          + ((n % 2 ^ k : Nat) : ℚ) / (2 : ℚ) ^ k * (2 : ℚ) ^ t := by
      have hn : (n : ℚ) = (2 : ℚ) ^ k * ((n / 2 ^ k : Nat) : ℚ) + ((n % 2 ^ k : Nat) : ℚ) := by
        exact_mod_cast hdm.symm
      rw [hek, zpow_sub₀ (by norm_num : (2 : ℚ) ≠ 0), zpow_natCast]
      nth_rewrite 1 [hn]
      field_simp
      ring
    have hhalf : |(m1 : ℚ) * (2 : ℚ) ^ e1 - (n : ℚ) * (2 : ℚ) ^ e| ≤ (2 : ℚ) ^ t / 2 ∧
        neg1 = neg := by
      generalize n / 2 ^ k = q at h hexact hdm
      generalize n % 2 ^ k = r at h hexact hdm hmod
      have hr0 : (0 : ℚ) ≤ r := by positivity
      have hrk : (r : ℚ) < (2 : ℚ) ^ k := by exact_mod_cast hmod
      split at h
      · rename_i hup
        obtain ⟨h1, h2⟩ := mkFin_value h
        refine ⟨?_, h1⟩
        have hge : (2 : ℚ) ^ k ≤ 2 * r := by
          rcases hup with hup | ⟨hup, _⟩
          · exact_mod_cast le_of_lt hup
          · exact_mod_cast le_of_eq hup.symm
        rw [h2, hexact]
        push_cast
        have : ((q : ℚ) + 1) * (2 : ℚ) ^ t
            - ((q : ℚ) * (2 : ℚ) ^ t + (r : ℚ) / (2 : ℚ) ^ k * (2 : ℚ) ^ t)
            = (1 - (r : ℚ) / (2 : ℚ) ^ k) * (2 : ℚ) ^ t := by ring
        rw [this]
        have hfrac1 : (r : ℚ) / (2 : ℚ) ^ k < 1 := (div_lt_one h2k).mpr hrk
        have hfrac2 : (1 : ℚ) / 2 ≤ (r : ℚ) / (2 : ℚ) ^ k := by
          rw [le_div_iff₀ h2k]
          linarith
        rw [abs_of_nonneg (mul_nonneg (by linarith) (le_of_lt h2t))]
        nlinarith
      · rename_i hup
        obtain ⟨h1, h2⟩ := mkFin_value h
        refine ⟨?_, h1⟩
        have hle : 2 * (r : ℚ) ≤ (2 : ℚ) ^ k := by
          have : 2 * r ≤ 2 ^ k := by
            by_contra hcon
            exact hup (Or.inl (by omega))
          exact_mod_cast this
        rw [h2, hexact]
        have : (q : ℚ) * (2 : ℚ) ^ t
            - ((q : ℚ) * (2 : ℚ) ^ t + (r : ℚ) / (2 : ℚ) ^ k * (2 : ℚ) ^ t)
            = -((r : ℚ) / (2 : ℚ) ^ k * (2 : ℚ) ^ t) := by ring
        rw [this, abs_neg]
        have hfrac0 : (0 : ℚ) ≤ (r : ℚ) / (2 : ℚ) ^ k := div_nonneg hr0 (le_of_lt h2k)
        have hfrac2 : (r : ℚ) / (2 : ℚ) ^ k ≤ 1 / 2 := by
          rw [div_le_iff₀ h2k]
          linarith
        rw [abs_of_nonneg (mul_nonneg hfrac0 (le_of_lt h2t))]
        nlinarith
    refine ⟨hhalf.2, le_trans hhalf.1 ?_⟩
    by_cases hsub : e + (bitLen n : Int) - 53 ≤ -1074
    · have ht2 : t = -1074 := by omega
      apply le_max_of_le_right
      rw [ht2]
      have : (2 : ℚ) ^ (-1074 : Int) = (2 : ℚ) ^ (-1075 : Int) * 2 := by
        rw [show (-1074 : Int) = -1075 + 1 by norm_num, zpow_add₀ (by norm_num : (2 : ℚ) ≠ 0)]
        simp
      rw [this]
      linarith [show (0 : ℚ) < (2 : ℚ) ^ (-1075 : Int) by positivity]
    · have ht2 : t = e + (bitLen n : Int) - 53 := by omega
      have hn : n ≠ 0 := by
        intro h0
        subst h0
        simp only [bitLen, bitLenAux_zero] at ht2 hte ht
        omega
      have hb := (bitLen_bounds hn).1
      have hbp := bitLen_pos hn
      apply le_max_of_le_left
      have hbq : (2 : ℚ) ^ ((bitLen n : Int) - 1) ≤ (n : ℚ) := by
        have h1 : ((2 ^ (bitLen n - 1) : Nat) : ℚ) ≤ (n : ℚ) := by exact_mod_cast hb
        have h2 : ((bitLen n : Int) - 1) = ((bitLen n - 1 : Nat) : Int) := by omega
        rw [h2, zpow_natCast]
        exact_mod_cast h1
      have hsplit : (2 : ℚ) ^ t / 2 =
          (2 : ℚ) ^ ((bitLen n : Int) - 1) * (2 : ℚ) ^ e * (2 : ℚ) ^ (-53 : Int) := by
        rw [ht2, show e + (bitLen n : Int) - 53 = ((bitLen n : Int) - 1) + e + (-53) + 1 by ring,
          zpow_add₀ (by norm_num : (2 : ℚ) ≠ 0), zpow_add₀ (by norm_num : (2 : ℚ) ≠ 0),
          zpow_add₀ (by norm_num : (2 : ℚ) ≠ 0)]
        simp
      rw [hsplit]
      have he0 : (0 : ℚ) < (2 : ℚ) ^ e := by positivity
      have h530 : (0 : ℚ) < (2 : ℚ) ^ (-53 : Int) := by positivity
      exact mul_le_mul_of_nonneg_right (mul_le_mul_of_nonneg_right hbq (le_of_lt he0))
        (le_of_lt h530)

end JsNum

/-- The Number of a length 0 is `+0`. -/
theorem roundDyadic_zero : JsNum.roundDyadic false 0 0 = .fin false 0 0 := by decide

/-! ## Effects of the handler's parts -/

theorem requests_append (xs ys : List Effect) :
    requests (xs ++ ys) = requests xs ++ requests ys := by
  induction xs with
  | nil => rfl
  | cons e es ih => cases e <;> simp [requests, ih]

theorem Quiet.refl (p : Page) : Quiet p p := ⟨[], by simp, rfl⟩

theorem Quiet.trans {p q r : Page} (h1 : Quiet p q) (h2 : Quiet q r) : Quiet p r := by
  obtain ⟨a, ha, ha2⟩ := h1
  obtain ⟨b, hb, hb2⟩ := h2
  exact ⟨a ++ b, by rw [hb, ha, List.append_assoc], by rw [requests_append, ha2, hb2]; rfl⟩

theorem Quiet.setHtml (p : Page) (s : String) : Quiet p (p.setHtml s) :=
  ⟨[.setHtml s], rfl, rfl⟩

theorem Quiet.appendChild (p : Page) (el : Element) : Quiet p (p.appendChild el) :=
  ⟨[.append el], rfl, rfl⟩

theorem Quiet.removeChild {p q : Page} {el : Element} (h : p.removeChild el = some q) :
    Quiet p q := by
  unfold Page.removeChild at h
  split at h
  · cases h; exact ⟨[.remove el], rfl, rfl⟩
  · cases h

theorem Quiet.readText (p : Page) : Quiet p (p.note .readText) := ⟨[.readText], rfl, rfl⟩

theorem Quiet.readJson (p : Page) : Quiet p (p.note .readJson) := ⟨[.readJson], rfl, rfl⟩

theorem renderOutfits_quiet (rt : Runtime) (os : List JsVal) :
    ∀ (i : Nat) (p : Page), Quiet p (renderOutfits rt i os p).2 := by
  induction os with
  | nil => intro i p; exact Quiet.refl p
  | cons o os ih =>
    intro i p
    unfold renderOutfits
    cases hc : renderCard rt i o with
    | error m => exact Quiet.refl p
    | ok card => exact (Quiet.appendChild p card).trans (ih (i + 1) (p.appendChild card))

theorem showOutfits_quiet (rt : Runtime) (v : JsVal) (p : Page) :
    Quiet p (showOutfits rt v p).2 := by
  unfold showOutfits
  simp only []
  split
  · exact Quiet.refl p
  · exact Quiet.setHtml p _
  · split
    · exact renderOutfits_quiet rt _ 0 p
    · exact Quiet.refl p

theorem tryBody_quiet (rt : Runtime) (net : Request → FetchResult) (body : JsVal) (p : Page) :
    Quiet (p.note (.fetch (request rt body))) (tryBody rt net body p).2 := by
  unfold tryBody
  simp only []
  split
  · exact Quiet.refl _
  · split
    · exact Quiet.refl _
    · rename_i p1 hp1
      refine (Quiet.removeChild hp1).trans ?_
      split
      · split
        · exact Quiet.readText p1
        · exact (Quiet.readText p1).trans (Quiet.setHtml _ _)
      · split
        · exact Quiet.readJson p1
        · exact (Quiet.readJson p1).trans (showOutfits_quiet rt _ _)

/-- With an array inventory the submission makes exactly one request, the one
built from the payload of the form. -/
theorem submit_requests (rt : Runtime) (net : Request → FetchResult) (form : Form) (p0 : Page)
    (items : List JsVal) (h : rt.jsonParse form.inventory = .ok (.arr items)) :
    ∃ added, (submit rt net form p0).log = p0.log ++ added ∧
      requests added = [request rt (payload form.occasion_type form.weather (.arr items)
        (max_outfits form.max_outfits) form.consider_previous)] := by
  have key := tryBody_quiet rt net
    (payload form.occasion_type form.weather (.arr items) (max_outfits form.max_outfits)
      form.consider_previous) ((p0.setHtml "").appendChild loading)
  have fin : ∀ q : Page, Quiet (((p0.setHtml "").appendChild loading).note
      (.fetch (request rt (payload form.occasion_type form.weather (.arr items)
        (max_outfits form.max_outfits) form.consider_previous)))) q →
      ∃ added, q.log = p0.log ++ added ∧
        requests added = [request rt (payload form.occasion_type form.weather (.arr items)
          (max_outfits form.max_outfits) form.consider_previous)] := by
    rintro q ⟨a, ha, ha2⟩
    refine ⟨[.setHtml "", .append loading, .fetch (request rt (payload form.occasion_type
      form.weather (.arr items) (max_outfits form.max_outfits) form.consider_previous))] ++ a,
      ?_, ?_⟩
    · rw [ha]; simp [Page.note, Page.appendChild, Page.setHtml]
    · simp [requests_append, requests, ha2]
  unfold submit
  simp only [parseInventory, h, JsVal.isArray, if_true]
  split
  · rename_i m p1 heq
    rw [heq] at key
    exact fin _ (key.trans (Quiet.setHtml _ _))
  · rename_i u p1 heq
    rw [heq] at key
    exact fin _ key

/-- The page when the `try` block starts: the area holds the loading indicator. -/
theorem submit_of_array (rt : Runtime) (net : Request → FetchResult) (form : Form) (p0 : Page)
    (items : List JsVal) (h : rt.jsonParse form.inventory = .ok (.arr items)) :
    submit rt net form p0 =
      match tryBody rt net (payload form.occasion_type form.weather (.arr items)
          (max_outfits form.max_outfits) form.consider_previous)
        { results := { html := "", appended := [loading] },
          log := p0.log ++ [.setHtml "", .append loading] } with
      | (.error m, p) => p.setHtml ("<div class=\"error\">Unexpected error: " ++ m ++ "</div>")
      | (.ok _, p) => p := by
  simp [submit, parseInventory, h, JsVal.isArray, Page.setHtml, Page.appendChild]

/-- The `try` block once a response has arrived: the loading indicator is removed,
then the status decides. -/
theorem tryBody_of_response (rt : Runtime) (net : Request → FetchResult) (body : JsVal)
    (log : List Effect) (res : Response) (hnet : net (request rt body) = .response res) :
    tryBody rt net body { results := { html := "", appended := [loading] }, log := log } =
      if !res.ok then
        match res.text with
        | .error m =>
          (.error m, { results := { html := "", appended := [] },
                       log := log ++ [.fetch (request rt body), .remove loading, .readText] })
        | .ok errText =>
          (.ok (), Page.setHtml
            { results := { html := "", appended := [] },
              log := log ++ [.fetch (request rt body), .remove loading, .readText] }
            ("<div class=\"error\">Request failed: " ++ toString res.status ++ " - " ++ errText
              ++ "</div>"))
      else
        match res.json with
        | .error m =>
          (.error m, { results := { html := "", appended := [] },
                       log := log ++ [.fetch (request rt body), .remove loading, .readJson] })
        | .ok outfits =>
          showOutfits rt outfits
            { results := { html := "", appended := [] },
              log := log ++ [.fetch (request rt body), .remove loading, .readJson] } := by
  simp only [tryBody, hnet, Page.note, Page.removeChild, List.mem_singleton, if_true,
    List.erase_cons_head, List.append_assoc, List.singleton_append]
  split <;> split <;> simp_all

theorem ok_false_of_status {res : Response} (h : res.status < 200 ∨ 299 < res.status) :
    res.ok = false := by
  simp only [Response.ok, Bool.and_eq_false_imp, decide_eq_true_eq, decide_eq_false_iff_not]
  omega

theorem ok_true_of_status {res : Response} (h : 200 ≤ res.status ∧ res.status ≤ 299) :
    res.ok = true := by
  simp [Response.ok, h.1, h.2]

theorem renderOutfits_fst (rt : Runtime) (os : List JsVal) :
    ∀ (i : Nat) (p q : Page), (renderOutfits rt i os p).1 = (renderOutfits rt i os q).1 := by
  induction os with
  | nil => intro i p q; rfl
  | cons o os ih =>
    intro i p q
    unfold renderOutfits
    cases renderCard rt i o with
    | error m => rfl
    | ok card => exact ih (i + 1) _ _

/-- Whether showing the outfits throws does not depend on the page. -/
theorem showOutfits_fst (rt : Runtime) (v : JsVal) (p q : Page) :
    (showOutfits rt v p).1 = (showOutfits rt v q).1 := by
  unfold showOutfits
  simp only []
  split
  · rfl
  · rfl
  · split
    · exact renderOutfits_fst rt _ 0 p q
    · rfl

theorem catch_results (m : String) (x : Except String Unit × Page) (hx : x.1 = .error m) :
    (match x with
      | (.error m, p) => p.setHtml ("<div class=\"error\">Unexpected error: " ++ m ++ "</div>")
      | (.ok _, p) => p).results =
      { html := "<div class=\"error\">Unexpected error: " ++ m ++ "</div>", appended := [] } := by
  obtain ⟨r, p⟩ := x
  simp only at hx
  subst hx
  rfl

/-! ## Rendering outfits of the shape the interface describes -/

theorem itemEntry_of_isItem (rt : Runtime) {it : JsVal} (h : IsItem it) :
    itemEntry rt it = .ok (specEntry it) := by
  obtain ⟨fs, id, ty, rfl, hid, hty, hname⟩ := h
  rcases hname with hn | hn | ⟨n, hn⟩
  · simp [itemEntry, JsVal.get, hn, hid, hty, JsVal.truthy, JsVal.toStr, specEntry,
      specItemLabel, stringField, field, bind, Except.bind, pure, Except.pure]
  · simp [itemEntry, JsVal.get, hn, hid, hty, JsVal.truthy, JsVal.toStr, specEntry,
      specItemLabel, stringField, field, bind, Except.bind, pure, Except.pure]
  · by_cases hne : n = ""
    · simp [itemEntry, JsVal.get, hn, hid, hty, JsVal.truthy, JsVal.toStr, specEntry,
        specItemLabel, stringField, field, bind, Except.bind, pure, Except.pure, hne]
    · simp [itemEntry, JsVal.get, hn, hid, hty, JsVal.truthy, JsVal.toStr, specEntry,
        specItemLabel, stringField, field, bind, Except.bind, pure, Except.pure, hne]

theorem itemEntries_of_isItem (rt : Runtime) (its : List JsVal) (h : ∀ it ∈ its, IsItem it) :
    itemEntries rt its = .ok (its.map specEntry) := by
  induction its with
  | nil => rfl
  | cons it rest ih =>
    have h1 := itemEntry_of_isItem rt (h it (List.mem_cons_self _ _))
    have h2 := ih (fun x hx => h x (List.mem_cons_of_mem _ hx))
    simp [itemEntries, h1, h2]

theorem renderCard_of_isOutfit (rt : Runtime) (i : Nat) {outfit : JsVal} (h : IsOutfit outfit) :
    renderCard rt i outfit = .ok (specCard rt (i + 1) outfit) := by
  obtain ⟨fs, rfl, hitems⟩ := h
  rcases hitems with hi | ⟨its, hi, hall⟩
  · simp [renderCard, itemsList, JsVal.get, hi, JsVal.truthy, itemEntries, specCard,
      outfitItems, field, bind, Except.bind, pure, Except.pure, Except.map]
  · simp [renderCard, itemsList, JsVal.get, hi, JsVal.truthy, itemEntries_of_isItem rt its hall,
      specCard, outfitItems, field, bind, Except.bind, pure, Except.pure, Except.map]

theorem renderOutfits_of_isOutfit (rt : Runtime) (os : List JsVal) :
    ∀ (i : Nat) (p : Page), (∀ o ∈ os, IsOutfit o) →
      renderOutfits rt i os p =
        (.ok (), { results := { html := p.results.html,
                                appended := p.results.appended ++ specCards rt (i + 1) os },
                   log := p.log ++ (specCards rt (i + 1) os).map Effect.append }) := by
  induction os with
  | nil => intro i p _; simp [renderOutfits, specCards]
  | cons o os ih =>
    intro i p h
    have h1 := renderCard_of_isOutfit rt i (h o (List.mem_cons_self _ _))
    have h2 := ih (i + 1) (p.appendChild (specCard rt (i + 1) o))
      (fun x hx => h x (List.mem_cons_of_mem _ hx))
    simp only [renderOutfits, h1, h2, specCards]
    simp [Page.appendChild]

theorem specCards_length (rt : Runtime) (os : List JsVal) :
    ∀ k, (specCards rt k os).length = os.length := by
  induction os with
  | nil => intro k; rfl
  | cons o os ih => intro k; simp [specCards, ih]

theorem specCards_getElem? (rt : Runtime) (os : List JsVal) :
    ∀ (k j : Nat) (o : JsVal), os[j]? = some o →
      (specCards rt k os)[j]? = some (specCard rt (k + j) o) := by
  induction os with
  | nil => intro k j o h; simp at h
  | cons x os ih =>
    intro k j o h
    cases j with
    | zero =>
      simp only [List.getElem?_cons_zero, Option.some.injEq] at h
      subst h
      simp [specCards]
    | succ j =>
      simp only [List.getElem?_cons_succ] at h
      have := ih (k + 1) j o h
      simp only [specCards, List.getElem?_cons_succ, this]
      congr 2
      omega

theorem sampleOutfits_wellFormed : ∀ o ∈ sampleOutfits, IsOutfit o := by
  intro o ho
  simp only [sampleOutfits, List.mem_singleton] at ho
  subst ho
  refine ⟨_, rfl, Or.inr ⟨_, rfl, ?_⟩⟩
  intro it hit
  simp only [List.mem_singleton] at hit
  subst hit
  exact ⟨_, "top1", "top", rfl, rfl, rfl, Or.inl rfl⟩

/-! ## Plain texts -/

theorem Plain.append {s t : String} (hs : Plain s) (ht : Plain t) : Plain (s ++ t) := by
  intro c hc
  rw [String.toList, String.data_append, List.mem_append] at hc
  rcases hc with hc | hc
  · exact hs c hc
  · exact ht c hc

theorem plainChar_digitChar (k : Nat) (hk : k < 10) : plainChar (Nat.digitChar k) = true := by
  interval_cases k <;> decide

theorem plain_toDigitsCore : ∀ (fuel n : Nat) (ds : List Char),
    (∀ c ∈ ds, plainChar c = true) →
    ∀ c ∈ Nat.toDigitsCore 10 fuel n ds, plainChar c = true := by
  intro fuel
  induction fuel with
  | zero => intro n ds hds c hc; simpa [Nat.toDigitsCore] using hds c hc
  | succ fuel ih =>
    intro n ds hds c hc
    have hd : ∀ x ∈ Nat.digitChar (n % 10) :: ds, plainChar x = true := by
      intro x hx
      rcases List.mem_cons.mp hx with rfl | hx
      · exact plainChar_digitChar _ (Nat.mod_lt _ (by decide))
      · exact hds x hx
    simp only [Nat.toDigitsCore] at hc
    split at hc
    · exact hd c hc
    · exact ih _ _ hd c hc

theorem plain_toString (n : Nat) : Plain (toString n) := by
  intro c hc
  exact plain_toDigitsCore _ _ [] (by simp) c hc

/-! ## Parsing the markup of the handler -/

theorem tokenize_plain (cs : List Char) (h : ∀ c ∈ cs, plainChar c = true) :
    ∀ (pending rest : List Char),
      tokenize (cs ++ rest) pending .data = tokenize rest (cs.reverse ++ pending) .data := by
  induction cs with
  | nil => intro pending rest; rfl
  | cons c cs ih =>
    intro pending rest
    have hc : plainChar c = true := h c (List.mem_cons_self _ _)
    have hne : ¬ c.toNat = 60 := by
      intro h60
      simp [plainChar, h60] at hc
    rw [List.cons_append, tokenize]
    simp only [hne, if_false, hc, if_true]
    rw [ih (fun x hx => h x (List.mem_cons_of_mem _ hx))]
    simp

theorem flush_text (s : String) (toks : List Token) :
    flush (s.toList.reverse ++ []) toks = textTokens s ++ toks := by
  unfold flush textTokens
  by_cases hs : s = ""
  · subst hs; rfl
  · have : ¬ (s.toList.reverse = []) := by
      intro h
      apply hs
      rw [List.reverse_eq_nil_iff] at h
      exact String.ext h
    simp only [List.append_nil, this, hs, if_false, List.reverse_reverse, List.singleton_append]
    rfl

theorem toList_append (s t : String) : (s ++ t).toList = s.toList ++ t.toList :=
  String.data_append s t

theorem tokenize_text (s : String) (hs : Plain s) (rest : List Char) :
    tokenize (s.toList ++ rest) [] .data = tokenize rest (s.toList.reverse ++ []) .data :=
  tokenize_plain s.toList hs [] rest

/-- The markup of an error panel with a plain text parses to the panel. -/
theorem parseFragment_errorPanel (t : String) (ht : Plain t) (hne : t ≠ "") :
    parseFragment ("<div class=\"error\">" ++ t ++ "</div>") = some [errorPanel t] := by
  have h1 : ∀ (pending rest : List Char),
      tokenize ("<div class=\"error\">".toList ++ rest) pending .data =
        (tokenize rest [] .data).map (fun toks =>
          flush pending (.startTag "div" [("class", "error")] :: toks)) := fun _ _ => rfl
  have h2 : ∀ (pending : List Char),
      tokenize "</div>".toList pending .data = some (flush pending [.endTag "div"]) :=
    fun _ => rfl
  have htok : tokenize ("<div class=\"error\">" ++ t ++ "</div>").toList [] .data =
      some [.startTag "div" [("class", "error")], .text t, .endTag "div"] := by
    rw [toList_append, toList_append, List.append_assoc, h1, tokenize_text t ht, h2, flush_text]
    simp [textTokens, hne, flush]
  simp only [parseFragment, htok]
  rfl

theorem flush_paren (ty : String) (toks : List Token) :
    flush (Char.ofNat 41 :: (ty.toList.reverse ++ [Char.ofNat 40])) toks =
      .text ("(" ++ ty ++ ")") :: toks := by
  unfold flush
  rw [if_neg (List.cons_ne_nil _ _)]
  congr 2
  apply String.ext
  simp [String.data_append]

/-- The tokens of the markup of one list entry. -/
theorem tokenize_specEntry (it : JsVal) (hl : Plain (specItemLabel it))
    (ht : Plain ((stringField it "item_type").getD "")) (rest : List Char) :
    tokenize ((specEntry it).toList ++ rest) [] .data =
      (tokenize rest [] .data).map (fun toks => specEntryTokens it ++ toks) := by
  have c1 : ∀ (p rest : List Char),
      tokenize ("<li><strong>".toList ++ rest) p .data =
        ((tokenize rest [] .data).map (fun toks => flush [] (.startTag "strong" [] :: toks))).map
          (fun toks => flush p (.startTag "li" [] :: toks)) := fun _ _ => rfl
  have c2 : ∀ (p rest : List Char),
      tokenize ("</strong> <span class=\"muted\">(".toList ++ rest) p .data =
        ((tokenize rest [Char.ofNat 40] .data).map
          (fun toks => flush [Char.ofNat 32] (.startTag "span" [("class", "muted")] :: toks))).map
          (fun toks => flush p (.endTag "strong" :: toks)) := fun _ _ => rfl
  have c3 : ∀ (p rest : List Char),
      tokenize (")</span></li>".toList ++ rest) p .data =
        ((tokenize rest [] .data).map (fun toks => flush [] (.endTag "li" :: toks))).map
          (fun toks => flush (Char.ofNat 41 :: p) (.endTag "span" :: toks)) := fun _ _ => rfl
  unfold specEntry
  rw [toList_append, toList_append, toList_append, toList_append]
  simp only [List.append_assoc]
  rw [c1, tokenize_text _ hl, c2, tokenize_plain _ ht, c3]
  simp only [Option.map_map]
  congr 1
  funext toks
  simp only [Function.comp, flush_text, flush_paren, specEntryTokens]
  simp [flush]

theorem join_cons (a : String) (l : List String) : String.join (a :: l) = a ++ String.join l := by
  have h : ∀ (l : List String) (acc : String),
      l.foldl (fun r s => r ++ s) acc = acc ++ l.foldl (fun r s => r ++ s) "" := by
    intro l
    induction l with
    | nil => intro acc; simp
    | cons x xs ih =>
      intro acc
      simp only [List.foldl_cons]
      rw [ih (acc ++ x), ih ("" ++ x), String.empty_append, String.append_assoc]
  simp only [String.join, List.foldl_cons]
  rw [h l ("" ++ a), String.empty_append]

/-- The tokens of the markup of the list entries. -/
theorem tokenize_specEntries (its : List JsVal)
    (hp : ∀ it ∈ its, Plain (specItemLabel it) ∧ Plain ((stringField it "item_type").getD "")) :
    ∀ rest : List Char,
      tokenize ((String.join (its.map specEntry)).toList ++ rest) [] .data =
        (tokenize rest [] .data).map (fun toks => specEntriesTokens its ++ toks) := by
  induction its with
  | nil =>
    intro rest
    simp [specEntriesTokens, String.join]
  | cons it its ih =>
    intro rest
    have h1 := hp it (List.mem_cons_self _ _)
    rw [List.map_cons, join_cons, toList_append, List.append_assoc,
      tokenize_specEntry it h1.1 h1.2, ih (fun x hx => hp x (List.mem_cons_of_mem _ hx)),
      Option.map_map]
    congr 1
    funext toks
    simp [specEntriesTokens]

/-- The tree builder on the tokens of one list entry, inside a list. -/
theorem build_specEntry (it : JsVal) (ts : List Token) (kids : List Node) (stack : List Frame)
    (top : List Node) :
    build (specEntryTokens it ++ ts) ({ tag := "ul", attrs := [], kids := kids } :: stack) top =
      build ts ({ tag := "ul", attrs := [], kids := specEntryNode it :: kids } :: stack) top := by
  unfold specEntryTokens specEntryNode textTokens textNodes
  by_cases h : specItemLabel it = ""
  · rw [if_pos h, if_pos h]; rfl
  · rw [if_neg h, if_neg h]; rfl

/-- The tree builder on the tokens of the list entries, inside a list. -/
theorem build_specEntries (its : List JsVal) :
    ∀ (ts : List Token) (kids : List Node) (stack : List Frame) (top : List Node),
      build (specEntriesTokens its ++ ts) ({ tag := "ul", attrs := [], kids := kids } :: stack) top =
        build ts ({ tag := "ul", attrs := [],
                    kids := (its.map specEntryNode).reverse ++ kids } :: stack) top := by
  induction its with
  | nil => intro ts kids stack top; rfl
  | cons it its ih =>
    intro ts kids stack top
    rw [specEntriesTokens, List.append_assoc, build_specEntry, ih]
    simp


theorem flush_title (k : String) (toks : List Token) :
    flush (Char.ofNat 32 :: (k.toList.reverse ++ "Outfit #".toList.reverse)) toks =
      .text ("Outfit #" ++ k ++ " ") :: toks := by
  unfold flush
  rw [if_neg (List.cons_ne_nil _ _)]
  congr 2
  apply String.ext
  simp [String.data_append]

/-- The markup of a card whose badge and item texts are plain parses to the
heading with the title and the badge, and the list with one entry per item. -/
theorem parseFragment_card (k : Nat) (badge : String) (its : List JsVal)
    (hb : Plain badge) (hne : badge ≠ "")
    (hp : ∀ it ∈ its, Plain (specItemLabel it) ∧ Plain ((stringField it "item_type").getD "")) :
    parseFragment ("\n          <h3>Outfit #" ++ toString k ++ " <span class=\"badge\">" ++ badge
        ++ "</span></h3>\n          <ul>" ++ String.join (its.map specEntry)
        ++ "</ul>\n        ") =
      some [.text "\n          ",
            .elem "h3" []
              [.text ("Outfit #" ++ toString k ++ " "),
               .elem "span" [("class", "badge")] [.text badge]],
            .text "\n          ",
            .elem "ul" [] (its.map specEntryNode),
            .text "\n        "] := by
  have d1 : ∀ rest : List Char,
      tokenize ("\n          <h3>Outfit #".toList ++ rest) [] .data =
        (tokenize rest "Outfit #".toList.reverse .data).map
          (fun toks => .text "\n          " :: .startTag "h3" [] :: toks) := fun _ => rfl
  have d2 : ∀ (p rest : List Char),
      tokenize (" <span class=\"badge\">".toList ++ rest) p .data =
        (tokenize rest [] .data).map
          (fun toks => flush (Char.ofNat 32 :: p) (.startTag "span" [("class", "badge")] :: toks)) :=
    fun _ _ => rfl
  have d3 : ∀ (p rest : List Char),
      tokenize ("</span></h3>\n          <ul>".toList ++ rest) p .data =
        (((tokenize rest [] .data).map
          (fun toks => .text "\n          " :: .startTag "ul" [] :: toks)).map
          (fun toks => .endTag "h3" :: toks)).map
          (fun toks => flush p (.endTag "span" :: toks)) := fun _ _ => rfl
  have d4 : tokenize "</ul>\n        ".toList [] .data =
      some [.endTag "ul", .text "\n        "] := rfl
  have htok : tokenize ("\n          <h3>Outfit #" ++ toString k ++ " <span class=\"badge\">"
        ++ badge ++ "</span></h3>\n          <ul>" ++ String.join (its.map specEntry)
        ++ "</ul>\n        ").toList [] .data =
      some (.text "\n          " :: .startTag "h3" [] :: .text ("Outfit #" ++ toString k ++ " ")
        :: .startTag "span" [("class", "badge")] :: .text badge :: .endTag "span" :: .endTag "h3"
        :: .text "\n          " :: .startTag "ul" []
        :: (specEntriesTokens its ++ [.endTag "ul", .text "\n        "])) := by
    rw [toList_append, toList_append, toList_append, toList_append, toList_append, toList_append]
    simp only [List.append_assoc]
    rw [d1, tokenize_plain _ (plain_toString k), d2, tokenize_text _ hb, d3,
      tokenize_specEntries its hp, d4]
    simp only [Option.map_some', flush_title, flush_text, textTokens, if_neg hne]
    rfl
  have hbuild : ∀ X : List Token,
      build (.text "\n          " :: .startTag "h3" [] :: .text ("Outfit #" ++ toString k ++ " ")
        :: .startTag "span" [("class", "badge")] :: .text badge :: .endTag "span" :: .endTag "h3"
        :: .text "\n          " :: .startTag "ul" [] :: X) [] [] =
      build X [{ tag := "ul", attrs := [], kids := [] }]
        [.text "\n          ",
         .elem "h3" []
           [.text ("Outfit #" ++ toString k ++ " "),
            .elem "span" [("class", "badge")] [.text badge]],
         .text "\n          "] := fun _ => rfl
  have hend : ∀ (kids top : List Node),
      build [.endTag "ul", .text "\n        "] [{ tag := "ul", attrs := [], kids := kids }] top =
        some (.text "\n        " :: .elem "ul" [] kids.reverse :: top).reverse := fun _ _ => rfl
  simp only [parseFragment, htok]
  rw [hbuild, build_specEntries, hend]
  simp

/-- The badge of a card is never empty. -/
theorem score_ne_empty (rt : Runtime) (v : JsVal) : score rt v ≠ "" := by
  have h : ∀ s : String, s ++ "%" ≠ "" := by
    intro s hs
    have := congrArg String.toList hs
    rw [toList_append] at this
    simp at this
  have hp : ("â€”" : String) ≠ "" := by decide
  cases v <;> first | exact h _ | exact hp

/-- Number::toString gives a plain text when the engine's formatting does. -/
theorem plain_toJsString (fmt : JsNum → String) (hfmt : ∀ x, Plain (fmt x)) (x : JsNum) :
    Plain (x.toJsString fmt) := by
  have h1 : Plain "NaN" := by decide
  have h2 : Plain "Infinity" := by decide
  have h3 : Plain "-Infinity" := by decide
  have h4 : Plain "0" := by decide
  have h5 : Plain "-" := by decide
  have h6 : Plain "" := by decide
  cases x with
  | nan => exact h1
  | inf neg => cases neg <;> first | exact h2 | exact h3
  | fin neg m e =>
    simp only [JsNum.toJsString]
    split_ifs <;> first
      | exact h4
      | exact Plain.append h5 (plain_toString _)
      | exact Plain.append h6 (plain_toString _)
      | exact hfmt _

/-- The badge of a card is a plain text when the engine's formatting of Numbers
gives plain texts. -/
theorem plain_score (rt : Runtime) (hfmt : ∀ x, Plain (rt.fmt x)) (v : JsVal) :
    Plain (score rt v) := by
  have h1 : Plain "%" := by decide
  have h2 : Plain "â€”" := by decide
  cases v <;> first
    | exact Plain.append (plain_toJsString rt.fmt hfmt _) h1
    | exact h2

/-- The node of a card whose texts are plain. -/
theorem node_specCard (rt : Runtime) (hfmt : ∀ x, Plain (rt.fmt x)) (k : Nat) (o : JsVal)
    (hp : ∀ it ∈ outfitItems o,
      Plain (specItemLabel it) ∧ Plain ((stringField it "item_type").getD "")) :
    (specCard rt k o).node = some (specCardNode rt k o) := by
  simp only [Element.node, specCard,
    parseFragment_card k _ _ (plain_score rt hfmt _) (score_ne_empty rt _) hp]
  rfl

/-- The nodes of the cards of outfits whose texts are plain. -/
theorem nodesOf_specCards (rt : Runtime) (hfmt : ∀ x, Plain (rt.fmt x)) (os : List JsVal) :
    ∀ k : Nat,
      (∀ o ∈ os, ∀ it ∈ outfitItems o,
        Plain (specItemLabel it) ∧ Plain ((stringField it "item_type").getD "")) →
      nodesOf (specCards rt k os) = some (specCardNodes rt k os) := by
  induction os with
  | nil => intro k _; rfl
  | cons o os ih =>
    intro k hp
    simp only [specCards, nodesOf, specCardNodes,
      node_specCard rt hfmt k o (hp o (List.mem_cons_self _ _)),
      ih (k + 1) (fun x hx => hp x (List.mem_cons_of_mem _ hx))]


/-- The sample formatting of Numbers gives plain texts: digits, a sign, a point
and the letter of the exponent. -/
theorem plain_numberToString (x : JsNum) : Plain (numberToString x) := by
  have h1 : Plain "NaN" := by decide
  have h2 : Plain "Infinity" := by decide
  have h3 : Plain "-Infinity" := by decide
  have h4 : Plain "0" := by decide
  cases x with
  | nan => exact h1
  | inf neg => cases neg <;> first | exact h2 | exact h3
  | fin neg m e =>
    simp only [numberToString]
    by_cases hm : m = 0
    · rw [if_pos hm]
      exact h4
    · rw [if_neg hm]
      have hd : ∀ n : Nat, ∀ c ∈ (toString n).toList, plainChar c = true := plain_toString
      have htake : ∀ (n k : Nat), ∀ c ∈ (toString n).toList.take k, plainChar c = true :=
        fun n k c hc => hd n c (List.mem_of_mem_take hc)
      have hdrop : ∀ (n k : Nat), ∀ c ∈ (toString n).toList.drop k, plainChar c = true :=
        fun n k c hc => hd n c (List.mem_of_mem_drop hc)
      have hzero : ∀ k : Nat, ∀ c ∈ List.replicate k '0', plainChar c = true := by
        intro k c hc
        rw [List.eq_of_mem_replicate hc]
        decide
      have hsign : ∀ c ∈ (if neg = true then ['-'] else []), plainChar c = true := by
        cases neg <;> decide
      have hexp : ∀ (c : Char) (ds : List Char), (∀ x ∈ ds, plainChar x = true) →
          c ∈ (match ds with
            | [] => []
            | [c] => [c]
            | c :: rest => c :: '.' :: rest) → plainChar c = true := by
        intro c ds hds hc
        match ds, hds, hc with
        | [], _, hc => simp at hc
        | [a], hds, hc =>
          simp only [List.mem_singleton] at hc
          subst hc
          exact hds _ (List.mem_singleton_self _)
        | a :: b :: rest, hds, hc =>
          simp only [List.mem_cons] at hc
          rcases hc with rfl | rfl | rfl | hc
          · exact hds _ (List.mem_cons_self _ _)
          · decide
          · exact hds _ (List.mem_cons_of_mem _ (List.mem_cons_self _ _))
          · exact hds _ (List.mem_cons_of_mem _ (List.mem_cons_of_mem _ hc))
      intro c hc
      rcases List.mem_append.mp hc with hc | hc
      · exact hsign c hc
      · split_ifs at hc
        · rcases List.mem_append.mp hc with hc | hc
          · exact hd _ c hc
          · exact hzero _ c hc
        · rcases List.mem_append.mp hc with hc | hc
          · exact htake _ _ c hc
          · rcases List.mem_cons.mp hc with rfl | hc
            · decide
            · exact hdrop _ _ c hc
        · rcases List.mem_cons.mp hc with rfl | hc
          · decide
          · rcases List.mem_cons.mp hc with rfl | hc
            · decide
            · rcases List.mem_append.mp hc with hc | hc
              · exact hzero _ c hc
              · exact hd _ c hc
        all_goals
          rcases List.mem_append.mp hc with hc | hc
          · exact hexp c _ (hd _) hc
          · rcases List.mem_cons.mp hc with rfl | hc
            · decide
            · rcases List.mem_cons.mp hc with rfl | hc
              · decide
              · exact hd _ c hc

/-- The children of the results area after an error panel with a plain text was
written to it. -/
theorem children_errorPanel (t : String) (ht : Plain t) (hne : t ≠ "") :
    Area.children { html := "<div class=\"error\">" ++ t ++ "</div>", appended := [] } =
      some [errorPanel t] := by
  simp only [Area.children, parseFragment_errorPanel t ht hne, nodesOf, List.append_nil]

theorem append_ne_empty (s t : String) (hs : s ≠ "") : s ++ t ≠ "" := by
  intro h
  apply hs
  have := congrArg String.toList h
  rw [toList_append] at this
  exact String.ext (List.append_eq_nil.mp this).1


theorem specCardNodes_length (rt : Runtime) (os : List JsVal) :
    ∀ k, (specCardNodes rt k os).length = os.length := by
  induction os with
  | nil => intro k; rfl
  | cons o os ih => intro k; simp [specCardNodes, ih]

theorem specCardNodes_getElem? (rt : Runtime) (os : List JsVal) :
    ∀ (k j : Nat) (o : JsVal), os[j]? = some o →
      (specCardNodes rt k os)[j]? = some (specCardNode rt (k + j) o) := by
  induction os with
  | nil => intro k j o h; simp at h
  | cons x os ih =>
    intro k j o h
    cases j with
    | zero =>
      simp only [List.getElem?_cons_zero, Option.some.injEq] at h
      subst h
      simp [specCardNodes]
    | succ j =>
      simp only [List.getElem?_cons_succ] at h
      have := ih (k + 1) j o h
      simp only [specCardNodes, List.getElem?_cons_succ, this]
      congr 2
      omega

/-- The rendered text of an area that holds one error panel is the text of the
panel. -/
theorem textOfList_errorPanel (t : String) : Node.textOfList [errorPanel t] = t := by
  simp [Node.textOfList, Node.textContent, errorPanel]


/-! ## Invalid inventory -/

/-- C1, as stated, fails where the parser's message holds markup. V8 quotes the
text in its message, and for the inventory text `</div><div>x` the results area
ends up holding two elements, the error panel cut short and a second `div`: not
one message of the form `Invalid inventory JSON: <message>`. -/
theorem C1_markup_in_message_splits_panel :
    sampleRuntime.jsonParse (sampleForm "2" "</div><div>x").inventory =
      .error "Unexpected token '<', \"</div><div>x\" is not valid JSON" ∧
    (submit sampleRuntime offline (sampleForm "2" "</div><div>x") emptyPage).results.html =
      "<div class=\"error\">Invalid inventory JSON: Unexpected token '<', \"</div><div>x\" is not valid JSON</div>" ∧
    (submit sampleRuntime offline (sampleForm "2" "</div><div>x") emptyPage).results.children =
      some [errorPanel "Invalid inventory JSON: Unexpected token '<', \"",
            .elem "div" [] [.text "x\" is not valid JSON"]] ∧
    (submit sampleRuntime offline (sampleForm "2" "</div><div>x") emptyPage).results.children ≠
      some [errorPanel
        "Invalid inventory JSON: Unexpected token '<', \"</div><div>x\" is not valid JSON"] := by
  refine ⟨rfl, rfl, rfl, ?_⟩
  intro h
  have h2 : (submit sampleRuntime offline (sampleForm "2" "</div><div>x")
      emptyPage).results.children =
      some [errorPanel "Invalid inventory JSON: Unexpected token '<', \"",
            .elem "div" [] [.text "x\" is not valid JSON"]] := rfl
  rw [h2] at h
  simp at h

/-- C1, amended: when the inventory text fails to parse with message `msg`, or
parses to a value that is not an array (then `msg` is `Inventory must be an
array`), the effects of the submission are two writes to the results area, its
clearing and the error markup with `msg` inserted as it is: no request, no
loading indicator. When `msg` holds none of `<`, `&`, U+0000, U+000D, and so
always for a parsed value that is not an array, the area ends up holding exactly
one error panel, with the text `Invalid inventory JSON: msg`. -/
theorem C1_invalid_inventory_shows_error (rt : Runtime) (net : Request → FetchResult)
    (form : Form) (p0 : Page) (msg : String)
    (h : rt.jsonParse form.inventory = .error msg ∨
      ∃ v, rt.jsonParse form.inventory = .ok v ∧ v.isArray = false ∧
        msg = "Inventory must be an array") :
    (submit rt net form p0).results =
        { html := "<div class=\"error\">Invalid inventory JSON: " ++ msg ++ "</div>",
          appended := [] } ∧
      (submit rt net form p0).log = p0.log ++
        [.setHtml "",
         .setHtml ("<div class=\"error\">Invalid inventory JSON: " ++ msg ++ "</div>")] ∧
      (Plain msg →
        (submit rt net form p0).results.children =
          some [errorPanel ("Invalid inventory JSON: " ++ msg)]) ∧
      (∀ v, rt.jsonParse form.inventory = .ok v →
        (submit rt net form p0).results.children =
          some [errorPanel "Invalid inventory JSON: Inventory must be an array"]) := by
  have hres : (submit rt net form p0).results =
      { html := "<div class=\"error\">Invalid inventory JSON: " ++ msg ++ "</div>",
        appended := [] } := by
    rcases h with h | ⟨v, hv, hna, rfl⟩
    · simp [submit, parseInventory, h, Page.setHtml]
    · simp [submit, parseInventory, hv, hna, Page.setHtml]
  have hlog : (submit rt net form p0).log = p0.log ++
      [.setHtml "",
       .setHtml ("<div class=\"error\">Invalid inventory JSON: " ++ msg ++ "</div>")] := by
    rcases h with h | ⟨v, hv, hna, rfl⟩
    · simp [submit, parseInventory, h, Page.setHtml]
    · simp [submit, parseInventory, hv, hna, Page.setHtml]
  have hkids : Plain msg → (submit rt net form p0).results.children =
      some [errorPanel ("Invalid inventory JSON: " ++ msg)] := by
    intro hp
    have h1 : Plain "Invalid inventory JSON: " := by decide
    have h2 : ("Invalid inventory JSON: " : String) ≠ "" := by decide
    have h3 : ("<div class=\"error\">Invalid inventory JSON: " : String) =
      "<div class=\"error\">" ++ "Invalid inventory JSON: " := by decide
    rw [hres, h3, String.append_assoc]
    exact children_errorPanel ("Invalid inventory JSON: " ++ msg) (Plain.append h1 hp)
      (append_ne_empty "Invalid inventory JSON: " msg h2)
  refine ⟨hres, hlog, hkids, ?_⟩
  intro v hv
  rcases h with h | ⟨_, _, _, hmsg⟩
  · rw [hv] at h
    cases h
  · have h1 : Plain "Inventory must be an array" := by decide
    have := hkids (by rw [hmsg]; exact h1)
    rw [hmsg] at this
    exact this

/-- C1, amended, at the inventory text `null`, which parses to a value that is
not an array: one error panel with the text
`Invalid inventory JSON: Inventory must be an array`. -/
theorem C1_invalid_inventory_shows_error_witness :
    (sampleRuntime.jsonParse (sampleForm "2" "null").inventory =
        .error "Inventory must be an array" ∨
      ∃ v, sampleRuntime.jsonParse (sampleForm "2" "null").inventory = .ok v ∧
        v.isArray = false ∧ "Inventory must be an array" = "Inventory must be an array") ∧
    Plain "Inventory must be an array" ∧
    ((submit sampleRuntime offline (sampleForm "2" "null") emptyPage).results =
        { html := "<div class=\"error\">Invalid inventory JSON: Inventory must be an array</div>",
          appended := [] } ∧
      (submit sampleRuntime offline (sampleForm "2" "null") emptyPage).log =
        [.setHtml "",
         .setHtml
           "<div class=\"error\">Invalid inventory JSON: Inventory must be an array</div>"] ∧
      (submit sampleRuntime offline (sampleForm "2" "null") emptyPage).results.children =
        some [errorPanel "Invalid inventory JSON: Inventory must be an array"]) :=
  ⟨Or.inr ⟨.null, rfl, rfl, rfl⟩, by decide,
   (C1_invalid_inventory_shows_error sampleRuntime offline (sampleForm "2" "null") emptyPage
     "Inventory must be an array" (Or.inr ⟨.null, rfl, rfl, rfl⟩)).1,
   (C1_invalid_inventory_shows_error sampleRuntime offline (sampleForm "2" "null") emptyPage
     "Inventory must be an array" (Or.inr ⟨.null, rfl, rfl, rfl⟩)).2.1,
   (C1_invalid_inventory_shows_error sampleRuntime offline (sampleForm "2" "null") emptyPage
     "Inventory must be an array" (Or.inr ⟨.null, rfl, rfl, rfl⟩)).2.2.1 (by decide)⟩

/-! ## The request and its `max_outfits` -/

/-- C2: with an inventory text that parses to the array `items`, the submission
makes exactly one request: a POST to `/api/v1/recommend-outfits` with the header
`Content-Type: application/json`, whose body is the serialisation of the object
with the five keys `user_info`, `occasion`, `inventory`, `max_outfits`,
`consider_previous_outfits`, where `user_info` is the constant `user_info`, the
occasion has `occasion_type` and `dress_code` equal to the form's occasion type
and `weather` equal to the form's weather, `inventory` is the parsed array itself
and `consider_previous_outfits` is the state of the checkbox. -/
theorem C2_one_post_request (rt : Runtime) (net : Request → FetchResult) (form : Form)
    (p0 : Page) (items : List JsVal) (h : rt.jsonParse form.inventory = .ok (.arr items)) :
    ∃ added,
      (submit rt net form p0).log = p0.log ++ added ∧
      requests added =
        [{ url := "/api/v1/recommend-outfits", method := "POST",
           headers := [("Content-Type", "application/json")],
           body := rt.jsonStringify (.obj [
             ("user_info", user_info),
             ("occasion", .obj [
               ("occasion_type", .str form.occasion_type),
               ("weather", .str form.weather),
               ("time_of_day", .str "afternoon"),
               ("location", .str "office"),
               ("dress_code", .str form.occasion_type),
               ("additional_notes", .null)]),
             ("inventory", .arr items),
             ("max_outfits", .num (max_outfits form.max_outfits)),
             ("consider_previous_outfits", .bool form.consider_previous)]) }] :=
  submit_requests rt net form p0 items h

/-- C2 on the sample form with the inventory text `[]`: the effects of the
submission hold one request, with the body text written out. -/
theorem C2_one_post_request_witness :
    sampleRuntime.jsonParse (sampleForm "2" "[]").inventory = .ok (.arr []) ∧
    (∃ added,
      (submit sampleRuntime offline (sampleForm "2" "[]") emptyPage).log =
        emptyPage.log ++ added ∧
      requests added =
        [{ url := "/api/v1/recommend-outfits", method := "POST",
           headers := [("Content-Type", "application/json")],
           body := sampleRuntime.jsonStringify (.obj [
             ("user_info", user_info),
             ("occasion", .obj [
               ("occasion_type", .str (sampleForm "2" "[]").occasion_type),
               ("weather", .str (sampleForm "2" "[]").weather),
               ("time_of_day", .str "afternoon"),
               ("location", .str "office"),
               ("dress_code", .str (sampleForm "2" "[]").occasion_type),
               ("additional_notes", .null)]),
             ("inventory", .arr []),
             ("max_outfits", .num (max_outfits (sampleForm "2" "[]").max_outfits)),
             ("consider_previous_outfits",
               .bool (sampleForm "2" "[]").consider_previous)]) }]) ∧
    requests (submit sampleRuntime offline (sampleForm "2" "[]") emptyPage).log =
      [{ url := "/api/v1/recommend-outfits", method := "POST",
         headers := [("Content-Type", "application/json")],
         body := "\x7b\"user_info\":\x7b\"user_id\":\"demo-user\",\"body_type\":\"rectangle\",\"skin_tone\":\"medium\",\"height_cm\":170,\"style_preferences\":[\"casual\",\"minimalist\"],\"color_preferences\":[\"blue\",\"white\",\"black\"],\"fit_preferences\":\x7b\x7d\x7d,\"occasion\":\x7b\"occasion_type\":\"casual\",\"weather\":\"mild\",\"time_of_day\":\"afternoon\",\"location\":\"office\",\"dress_code\":\"casual\",\"additional_notes\":null\x7d,\"inventory\":[],\"max_outfits\":2,\"consider_previous_outfits\":true\x7d" }] :=
  ⟨rfl, C2_one_post_request sampleRuntime offline (sampleForm "2" "[]") emptyPage [] rfl,
   rfl⟩

/-- C3: when `parseInt` of the `max_outfits` text gives `NaN` (and the inventory is
an array, so that a payload is built), the one request of the submission carries
the payload whose `max_outfits` is the Number 2. -/
theorem C3_unparsable_max_outfits_is_two (rt : Runtime) (net : Request → FetchResult)
    (form : Form) (p0 : Page) (items : List JsVal)
    (h : rt.jsonParse form.inventory = .ok (.arr items))
    (hnan : parseInt form.max_outfits = .nan) :
    max_outfits form.max_outfits = .fin false 1 1 ∧
    JsNum.value (.fin false 1 1) = 2 ∧
    ∃ added,
      (submit rt net form p0).log = p0.log ++ added ∧
      requests added = [request rt (payload form.occasion_type form.weather (.arr items)
        (.fin false 1 1) form.consider_previous)] ∧
      (payload form.occasion_type form.weather (.arr items) (.fin false 1 1)
        form.consider_previous).get rt "max_outfits" = .ok (.num (.fin false 1 1)) := by
  have hmax : max_outfits form.max_outfits = .fin false 1 1 := by
    simp [max_outfits, hnan, JsNum.truthy, JsNum.two]
  obtain ⟨added, h1, h2⟩ := submit_requests rt net form p0 items h
  rw [hmax] at h2
  exact ⟨hmax, by simp [JsNum.value], added, h1, h2, by simp [payload, JsVal.get, List.lookup]⟩

/-- C3 at the `max_outfits` texts `abc` and the empty text. -/
theorem C3_unparsable_max_outfits_is_two_witness :
    (sampleRuntime.jsonParse (sampleForm "abc" "[]").inventory = .ok (.arr []) ∧
      parseInt (sampleForm "abc" "[]").max_outfits = .nan ∧ parseInt "" = .nan) ∧
    (max_outfits (sampleForm "abc" "[]").max_outfits = .fin false 1 1 ∧
    JsNum.value (.fin false 1 1) = 2 ∧
    ∃ added,
      (submit sampleRuntime offline (sampleForm "abc" "[]") emptyPage).log =
        emptyPage.log ++ added ∧
      requests added = [request sampleRuntime (payload (sampleForm "abc" "[]").occasion_type
        (sampleForm "abc" "[]").weather (.arr []) (.fin false 1 1)
        (sampleForm "abc" "[]").consider_previous)] ∧
      (payload (sampleForm "abc" "[]").occasion_type (sampleForm "abc" "[]").weather (.arr [])
        (.fin false 1 1) (sampleForm "abc" "[]").consider_previous).get sampleRuntime
          "max_outfits" = .ok (.num (.fin false 1 1))) :=
  ⟨⟨rfl, by decide, by decide⟩,
   C3_unparsable_max_outfits_is_two sampleRuntime offline (sampleForm "abc" "[]") emptyPage []
     rfl (by decide)⟩

/-- C4, as stated, fails at the text `0`: `parseInt` gives the integer 0, the
value of `max_outfits` is 2, and the body of the request says so. -/
theorem C4_zero_is_replaced_by_two :
    parseInt (sampleForm "0" "[]").max_outfits = .fin false 0 0 ∧
    JsNum.value (.fin false 0 0) = 0 ∧
    max_outfits (sampleForm "0" "[]").max_outfits = .fin false 1 1 ∧
    JsNum.value (.fin false 1 1) = 2 ∧
    requests (submit sampleRuntime offline (sampleForm "0" "[]") emptyPage).log =
      [{ url := "/api/v1/recommend-outfits", method := "POST",
         headers := [("Content-Type", "application/json")],
         body := "\x7b\"user_info\":\x7b\"user_id\":\"demo-user\",\"body_type\":\"rectangle\",\"skin_tone\":\"medium\",\"height_cm\":170,\"style_preferences\":[\"casual\",\"minimalist\"],\"color_preferences\":[\"blue\",\"white\",\"black\"],\"fit_preferences\":\x7b\x7d\x7d,\"occasion\":\x7b\"occasion_type\":\"casual\",\"weather\":\"mild\",\"time_of_day\":\"afternoon\",\"location\":\"office\",\"dress_code\":\"casual\",\"additional_notes\":null\x7d,\"inventory\":[],\"max_outfits\":2,\"consider_previous_outfits\":true\x7d" }] := by
  refine ⟨by decide, by simp [JsNum.value], by decide, by simp [JsNum.value], rfl⟩

/-- C4, amended: when `parseInt` of the `max_outfits` text gives a finite Number
`n` (and the inventory is an array), the value of `max_outfits`, which the
payload of the one request carries, is `n` itself if `n` is not zero, and 2 if
`n` is zero (`+0` or `-0`). -/
theorem C4_nonzero_max_outfits_is_kept (rt : Runtime) (net : Request → FetchResult)
    (form : Form) (p0 : Page) (items : List JsVal) (neg : Bool) (m : Nat) (e : Int)
    (h : rt.jsonParse form.inventory = .ok (.arr items))
    (hn : parseInt form.max_outfits = .fin neg m e) :
    max_outfits form.max_outfits = (if m = 0 then .fin false 1 1 else .fin neg m e) ∧
    ∃ added,
      (submit rt net form p0).log = p0.log ++ added ∧
      requests added = [request rt (payload form.occasion_type form.weather (.arr items)
        (if m = 0 then .fin false 1 1 else .fin neg m e) form.consider_previous)] ∧
      (payload form.occasion_type form.weather (.arr items)
        (if m = 0 then .fin false 1 1 else .fin neg m e)
        form.consider_previous).get rt "max_outfits" =
          .ok (.num (if m = 0 then .fin false 1 1 else .fin neg m e)) := by
  have hmax : max_outfits form.max_outfits = (if m = 0 then .fin false 1 1 else .fin neg m e) := by
    by_cases hm : m = 0
    · simp [max_outfits, hn, JsNum.truthy, JsNum.two, hm]
    · simp [max_outfits, hn, JsNum.truthy, hm]
  obtain ⟨added, h1, h2⟩ := submit_requests rt net form p0 items h
  rw [hmax] at h2
  exact ⟨hmax, added, h1, h2, by simp [payload, JsVal.get, List.lookup]⟩

/-- C4, amended, at the text `3`: the payload carries 3. -/
theorem C4_nonzero_max_outfits_is_kept_witness :
    (sampleRuntime.jsonParse (sampleForm "3" "[]").inventory = .ok (.arr []) ∧
      parseInt (sampleForm "3" "[]").max_outfits = .fin false 3 0) ∧
    (max_outfits (sampleForm "3" "[]").max_outfits =
      (if 3 = 0 then .fin false 1 1 else .fin false 3 0) ∧
    ∃ added,
      (submit sampleRuntime offline (sampleForm "3" "[]") emptyPage).log =
        emptyPage.log ++ added ∧
      requests added = [request sampleRuntime (payload (sampleForm "3" "[]").occasion_type
        (sampleForm "3" "[]").weather (.arr [])
        (if 3 = 0 then .fin false 1 1 else .fin false 3 0)
        (sampleForm "3" "[]").consider_previous)] ∧
      (payload (sampleForm "3" "[]").occasion_type (sampleForm "3" "[]").weather (.arr [])
        (if 3 = 0 then .fin false 1 1 else .fin false 3 0)
        (sampleForm "3" "[]").consider_previous).get sampleRuntime "max_outfits" =
          .ok (.num (if 3 = 0 then .fin false 1 1 else .fin false 3 0))) :=
  ⟨⟨rfl, by decide⟩,
   C4_nonzero_max_outfits_is_kept sampleRuntime offline (sampleForm "3" "[]") emptyPage []
     false 3 0 rfl (by decide)⟩

/-! ## Failure status and empty response -/

/-- C5, as stated, fails where the body holds markup: for a response with status
500 and the body `</div><div class="error">x` the results area ends up holding
two error panels, with the texts `Request failed: 500 - ` and `x`, not one panel
with the text `Request failed: 500 - </div><div class="error">x`, and the
rendered text `Request failed: 500 - x` does not hold the raw body. -/
theorem C5_markup_in_body_gives_two_panels :
    (textResponse 500 "</div><div class=\"error\">x").text =
      .ok "</div><div class=\"error\">x" ∧
    (submit sampleRuntime (serverText 500 "</div><div class=\"error\">x") (sampleForm "2" "[]")
      emptyPage).results.html =
      "<div class=\"error\">Request failed: 500 - </div><div class=\"error\">x</div>" ∧
    (submit sampleRuntime (serverText 500 "</div><div class=\"error\">x") (sampleForm "2" "[]")
      emptyPage).results.children =
      some [errorPanel "Request failed: 500 - ", errorPanel "x"] ∧
    (submit sampleRuntime (serverText 500 "</div><div class=\"error\">x") (sampleForm "2" "[]")
      emptyPage).results.children ≠
      some [errorPanel "Request failed: 500 - </div><div class=\"error\">x"] ∧
    (submit sampleRuntime (serverText 500 "</div><div class=\"error\">x") (sampleForm "2" "[]")
      emptyPage).results.children.map Node.textOfList = some "Request failed: 500 - x" := by
  refine ⟨rfl, rfl, rfl, ?_, rfl⟩
  intro h
  have h2 : (submit sampleRuntime (serverText 500 "</div><div class=\"error\">x")
      (sampleForm "2" "[]") emptyPage).results.children =
      some [errorPanel "Request failed: 500 - ", errorPanel "x"] := rfl
  rw [h2] at h
  simp at h

/-- C5, amended: with an array inventory and a response whose status `s` is
outside 200..299 and whose body reads as the text `b`, the effects of the
submission are: clearing the area, showing the loading indicator, the request,
removing the indicator, reading the body as text, and writing the error markup
with `s` and `b` inserted as they are; no card is appended and `res.json()` is not
called. When `b` holds none of `<`, `&`, U+0000, U+000D, the area ends up holding
exactly one error panel, with the text `Request failed: s - b`, which is then the
rendered text of the area. -/
theorem C5_failed_status_shows_status_and_body (rt : Runtime) (net : Request → FetchResult)
    (form : Form) (p0 : Page) (items : List JsVal) (res : Response) (b : String)
    (h : rt.jsonParse form.inventory = .ok (.arr items))
    (hnet : net (request rt (payload form.occasion_type form.weather (.arr items)
      (max_outfits form.max_outfits) form.consider_previous)) = .response res)
    (hstatus : res.status < 200 ∨ 299 < res.status)
    (htext : res.text = .ok b) :
    (submit rt net form p0).results =
        { html := "<div class=\"error\">Request failed: " ++ toString res.status ++ " - " ++ b
            ++ "</div>",
          appended := [] } ∧
      (submit rt net form p0).log = p0.log ++
        [.setHtml "", .append loading,
         .fetch (request rt (payload form.occasion_type form.weather (.arr items)
           (max_outfits form.max_outfits) form.consider_previous)),
         .remove loading, .readText,
         .setHtml ("<div class=\"error\">Request failed: " ++ toString res.status ++ " - " ++ b
           ++ "</div>")] ∧
      (Plain b →
        (submit rt net form p0).results.children =
          some [errorPanel ("Request failed: " ++ toString res.status ++ " - " ++ b)] ∧
        (submit rt net form p0).results.children.map Node.textOfList =
          some ("Request failed: " ++ toString res.status ++ " - " ++ b)) := by
  have hrun : (submit rt net form p0).results =
        { html := "<div class=\"error\">Request failed: " ++ toString res.status ++ " - " ++ b
            ++ "</div>",
          appended := [] } ∧
      (submit rt net form p0).log = p0.log ++
        [.setHtml "", .append loading,
         .fetch (request rt (payload form.occasion_type form.weather (.arr items)
           (max_outfits form.max_outfits) form.consider_previous)),
         .remove loading, .readText,
         .setHtml ("<div class=\"error\">Request failed: " ++ toString res.status ++ " - " ++ b
           ++ "</div>")] := by
    rw [submit_of_array rt net form p0 items h, tryBody_of_response rt net _ _ res hnet,
      ok_false_of_status hstatus]
    simp [htext, Page.setHtml]
  refine ⟨hrun.1, hrun.2, ?_⟩
  intro hp
  have h1 : Plain "Request failed: " := by decide
  have h2 : ("Request failed: " : String) ≠ "" := by decide
  have h3 : ("<div class=\"error\">Request failed: " : String) =
    "<div class=\"error\">" ++ "Request failed: " := by decide
  have h4 : Plain " - " := by decide
  have hplain : Plain ("Request failed: " ++ (toString res.status ++ (" - " ++ b))) :=
    Plain.append h1 (Plain.append (plain_toString res.status) (Plain.append h4 hp))
  have hkids := children_errorPanel ("Request failed: " ++ (toString res.status ++ (" - " ++ b)))
    hplain (append_ne_empty "Request failed: " (toString res.status ++ (" - " ++ b)) h2)
  have hkids2 : (submit rt net form p0).results.children =
      some [errorPanel ("Request failed: " ++ toString res.status ++ " - " ++ b)] := by
    rw [hrun.1, h3]
    simp only [String.append_assoc] at hkids ⊢
    exact hkids
  refine ⟨hkids2, ?_⟩
  rw [hkids2, Option.map_some', textOfList_errorPanel]

/-- C5, amended, at a response with status 500 and body `server error`: one error
panel, whose text holds both. -/
theorem C5_failed_status_shows_status_and_body_witness :
    (sampleRuntime.jsonParse (sampleForm "2" "[]").inventory = .ok (.arr []) ∧
      (500 < 200 ∨ 299 < 500) ∧ Plain "server error") ∧
    ((submit sampleRuntime serverError (sampleForm "2" "[]") emptyPage).results =
        { html := "<div class=\"error\">Request failed: 500 - server error</div>",
          appended := [] } ∧
      (submit sampleRuntime serverError (sampleForm "2" "[]") emptyPage).log =
        [.setHtml "", .append loading,
         .fetch (request sampleRuntime (payload "casual" "mild" (.arr []) (.fin false 1 1) true)),
         .remove loading, .readText,
         .setHtml "<div class=\"error\">Request failed: 500 - server error</div>"] ∧
      (submit sampleRuntime serverError (sampleForm "2" "[]") emptyPage).results.children =
        some [errorPanel "Request failed: 500 - server error"] ∧
      (submit sampleRuntime serverError (sampleForm "2" "[]")
        emptyPage).results.children.map Node.textOfList =
        some "Request failed: 500 - server error") :=
  ⟨⟨rfl, by decide, by decide⟩,
   (C5_failed_status_shows_status_and_body sampleRuntime serverError (sampleForm "2" "[]")
     emptyPage [] errorResponse "server error" rfl rfl (by decide) rfl).1,
   (C5_failed_status_shows_status_and_body sampleRuntime serverError (sampleForm "2" "[]")
     emptyPage [] errorResponse "server error" rfl rfl (by decide) rfl).2.1,
   (C5_failed_status_shows_status_and_body sampleRuntime serverError (sampleForm "2" "[]")
     emptyPage [] errorResponse "server error" rfl rfl (by decide) rfl).2.2 (by decide)⟩

/-- C6: with an array inventory and a response with a status in 200..299 whose
body parses to the empty array or to `null`, the effects of the submission are:
clearing the area, showing the loading indicator, the request, removing the
indicator, reading the body as JSON, and writing the empty-results markup; the
area ends up holding exactly that markup, no card and no loading indicator. -/
theorem C6_empty_response_shows_message (rt : Runtime) (net : Request → FetchResult)
    (form : Form) (p0 : Page) (items : List JsVal) (res : Response) (v : JsVal)
    (h : rt.jsonParse form.inventory = .ok (.arr items))
    (hnet : net (request rt (payload form.occasion_type form.weather (.arr items)
      (max_outfits form.max_outfits) form.consider_previous)) = .response res)
    (hstatus : 200 ≤ res.status ∧ res.status ≤ 299)
    (hjson : res.json = .ok v)
    (hv : v = .arr [] ∨ v = .null) :
    (submit rt net form p0).results =
        { html := "<div class=\"empty\">No outfits found. Try adjusting inputs or inventory.</div>",
          appended := [] } ∧
      (submit rt net form p0).log = p0.log ++
        [.setHtml "", .append loading,
         .fetch (request rt (payload form.occasion_type form.weather (.arr items)
           (max_outfits form.max_outfits) form.consider_previous)),
         .remove loading, .readJson,
         .setHtml
           "<div class=\"empty\">No outfits found. Try adjusting inputs or inventory.</div>"] := by
  rw [submit_of_array rt net form p0 items h, tryBody_of_response rt net _ _ res hnet,
    ok_true_of_status hstatus]
  rcases hv with rfl | rfl
  · simp [hjson, showOutfits, JsVal.truthy, JsVal.get, roundDyadic_zero, JsVal.isZero,
      Except.map, Page.setHtml]
  · simp [hjson, showOutfits, JsVal.truthy, Page.setHtml]

/-- C6 at a response with status 200 whose body parses to the empty array. -/
theorem C6_empty_response_shows_message_witness :
    (sampleRuntime.jsonParse (sampleForm "2" "[]").inventory = .ok (.arr []) ∧
      (200 ≤ 200 ∧ 200 ≤ 299) ∧ (JsVal.arr [] = .arr [] ∨ JsVal.arr [] = .null)) ∧
    ((submit sampleRuntime (serverJson (.arr [])) (sampleForm "2" "[]") emptyPage).results =
        { html := "<div class=\"empty\">No outfits found. Try adjusting inputs or inventory.</div>",
          appended := [] } ∧
      (submit sampleRuntime (serverJson (.arr [])) (sampleForm "2" "[]") emptyPage).log =
        [.setHtml "", .append loading,
         .fetch (request sampleRuntime (payload "casual" "mild" (.arr []) (.fin false 1 1) true)),
         .remove loading, .readJson,
         .setHtml
           "<div class=\"empty\">No outfits found. Try adjusting inputs or inventory.</div>"]) :=
  ⟨⟨rfl, by decide, Or.inl rfl⟩,
   C6_empty_response_shows_message sampleRuntime (serverJson (.arr [])) (sampleForm "2" "[]")
     emptyPage []
     (jsonResponse (.arr []))
     (.arr []) rfl rfl (by decide) rfl (Or.inl rfl)⟩

/-! ## Outfit cards -/

theorem markupOutfits_wellFormed : ∀ o ∈ markupOutfits, IsOutfit o := by
  intro o ho
  simp only [markupOutfits, List.mem_singleton] at ho
  subst ho
  refine ⟨_, rfl, Or.inr ⟨_, rfl, ?_⟩⟩
  intro it hit
  simp only [List.mem_singleton] at hit
  subst hit
  exact ⟨_, "top1", "top", rfl, rfl, rfl, Or.inr (Or.inr ⟨_, rfl⟩)⟩

/-- C7, as stated, fails where an item text holds markup: for a response of one
outfit with the one item named `x</strong></li><li><strong>y`, the list of the
card holds two entries, the first showing `x` and no item type, the second
showing `y (top)`: not one entry per item showing the item's name. -/
theorem C7_markup_in_name_gives_two_entries :
    (∀ o ∈ markupOutfits, IsOutfit o) ∧
    markupOutfits.map (fun o => (outfitItems o).length) = [1] ∧
    (submit sampleRuntime (serverJson (.arr markupOutfits)) (sampleForm "2" "[]")
      emptyPage).results.children =
      some [.elem "div" [("class", "outfit-card")]
        [.text "\n          ",
         .elem "h3" []
           [.text "Outfit #1 ", .elem "span" [("class", "badge")] [.text "80%"]],
         .text "\n          ",
         .elem "ul" []
           [.elem "li" [] [.elem "strong" [] [.text "x"]],
            .elem "li" []
              [.elem "strong" [] [.text "y"], .text " ",
               .elem "span" [("class", "muted")] [.text "(top)"]]],
         .text "\n        "]] :=
  ⟨markupOutfits_wellFormed, rfl, rfl⟩

/-- C7, amended: with an array inventory and a response with a status in 200..299
whose body parses to a non-empty array of outfit objects, the results area ends
up holding no markup of its own and exactly one appended card per outfit: the
card at position `j` (from 0) has the markup of the card numbered `j + 1` of the
outfit at position `j`, with the badge and the names, ids and types of the items
inserted as they are. When these item texts hold none of `<`, `&`, U+0000,
U+000D (and the engine prints Numbers without them), the area ends up holding
exactly the card nodes of the outfits, in order: the card numbered `k` is titled
`Outfit #k`, and its list has one entry per item in the order of the items, each
the name (the `item_id` when the name is missing or empty) followed by the
`item_type` in parentheses; an outfit without `items` gets an empty list. -/
theorem C7_one_card_per_outfit (rt : Runtime) (net : Request → FetchResult)
    (form : Form) (p0 : Page) (items : List JsVal) (res : Response) (outfits : List JsVal)
    (h : rt.jsonParse form.inventory = .ok (.arr items))
    (hnet : net (request rt (payload form.occasion_type form.weather (.arr items)
      (max_outfits form.max_outfits) form.consider_previous)) = .response res)
    (hstatus : 200 ≤ res.status ∧ res.status ≤ 299)
    (hjson : res.json = .ok (.arr outfits))
    (hne : outfits ≠ [])
    (hwf : ∀ o ∈ outfits, IsOutfit o) :
    (submit rt net form p0).results.html = "" ∧
    (submit rt net form p0).results.appended.length = outfits.length ∧
    (∀ (j : Nat) (o : JsVal), outfits[j]? = some o →
      (submit rt net form p0).results.appended[j]? =
        some { className := "outfit-card",
               content := .html ("\n          <h3>Outfit #" ++ toString (j + 1)
                 ++ " <span class=\"badge\">" ++ score rt (field o "confidence_score")
                 ++ "</span></h3>\n          <ul>"
                 ++ String.join ((outfitItems o).map specEntry) ++ "</ul>\n        ") }) ∧
    ((∀ x, Plain (rt.fmt x)) →
      (∀ o ∈ outfits, ∀ it ∈ outfitItems o,
        Plain (specItemLabel it) ∧ Plain ((stringField it "item_type").getD "")) →
      ∃ cards, (submit rt net form p0).results.children = some cards ∧
        cards.length = outfits.length ∧
        ∀ (j : Nat) (o : JsVal), outfits[j]? = some o →
          cards[j]? =
            some (.elem "div" [("class", "outfit-card")]
              [.text "\n          ",
               .elem "h3" []
                 [.text ("Outfit #" ++ toString (j + 1) ++ " "),
                  .elem "span" [("class", "badge")]
                    [.text (score rt (field o "confidence_score"))]],
               .text "\n          ",
               .elem "ul" [] ((outfitItems o).map specEntryNode),
               .text "\n        "])) := by
  have hlen : JsVal.isZero (.num (JsNum.roundDyadic false outfits.length 0)) = false := by
    have hn : outfits.length ≠ 0 := by simpa using hne
    have := JsNum.roundDyadic_nat_truthy hn
    cases hr : JsNum.roundDyadic false outfits.length 0 with
    | nan => rfl
    | inf neg => rfl
    | fin neg m e =>
      rw [hr] at this
      simpa [JsNum.truthy, JsVal.isZero] using this
  have hrun : submit rt net form p0 =
      { results := { html := "", appended := specCards rt 1 outfits },
        log := p0.log ++ [.setHtml "", .append loading,
          .fetch (request rt (payload form.occasion_type form.weather (.arr items)
            (max_outfits form.max_outfits) form.consider_previous)),
          .remove loading, .readJson] ++ (specCards rt 1 outfits).map Effect.append } := by
    rw [submit_of_array rt net form p0 items h, tryBody_of_response rt net _ _ res hnet,
      ok_true_of_status hstatus]
    simp [hjson, showOutfits, JsVal.truthy, JsVal.get, Except.map, hlen,
      renderOutfits_of_isOutfit rt outfits 0 _ hwf]
  rw [hrun]
  refine ⟨rfl, specCards_length rt outfits 1, ?_, ?_⟩
  · intro j o hj
    have := specCards_getElem? rt outfits 1 j o hj
    simp only [this, specCard, Nat.add_comm 1 j]
  · intro hfmt hplain
    refine ⟨specCardNodes rt 1 outfits, ?_, specCardNodes_length rt outfits 1, ?_⟩
    · have hempty : parseFragment "" = some [] := rfl
      simp only [Area.children, hempty, nodesOf_specCards rt hfmt outfits 1 hplain,
        List.nil_append]
    · intro j o hj
      have := specCardNodes_getElem? rt outfits 1 j o hj
      simp only [this, specCardNode, Nat.add_comm 1 j]

/-- C7, amended, at the response of the interface example: one card, titled
`Outfit #1`, with the badge `80%` and the single entry `top1 (top)`. -/
theorem C7_one_card_per_outfit_witness :
    (sampleRuntime.jsonParse (sampleForm "2" "[]").inventory = .ok (.arr []) ∧
      (200 ≤ 200 ∧ 200 ≤ 299) ∧ sampleOutfits ≠ [] ∧ (∀ o ∈ sampleOutfits, IsOutfit o) ∧
      (∀ x, Plain (sampleRuntime.fmt x)) ∧
      (∀ o ∈ sampleOutfits, ∀ it ∈ outfitItems o,
        Plain (specItemLabel it) ∧ Plain ((stringField it "item_type").getD ""))) ∧
    ((submit sampleRuntime (serverJson (.arr sampleOutfits)) (sampleForm "2" "[]")
        emptyPage).results.html = "" ∧
      (submit sampleRuntime (serverJson (.arr sampleOutfits)) (sampleForm "2" "[]")
        emptyPage).results.appended.length = sampleOutfits.length ∧
      (∀ (j : Nat) (o : JsVal), sampleOutfits[j]? = some o →
        (submit sampleRuntime (serverJson (.arr sampleOutfits)) (sampleForm "2" "[]")
          emptyPage).results.appended[j]? =
          some { className := "outfit-card",
                 content := .html ("\n          <h3>Outfit #" ++ toString (j + 1)
                   ++ " <span class=\"badge\">"
                   ++ score sampleRuntime (field o "confidence_score")
                   ++ "</span></h3>\n          <ul>"
                   ++ String.join ((outfitItems o).map specEntry) ++ "</ul>\n        ") }) ∧
      ∃ cards, (submit sampleRuntime (serverJson (.arr sampleOutfits)) (sampleForm "2" "[]")
          emptyPage).results.children = some cards ∧
        cards.length = sampleOutfits.length ∧
        ∀ (j : Nat) (o : JsVal), sampleOutfits[j]? = some o →
          cards[j]? =
            some (.elem "div" [("class", "outfit-card")]
              [.text "\n          ",
               .elem "h3" []
                 [.text ("Outfit #" ++ toString (j + 1) ++ " "),
                  .elem "span" [("class", "badge")]
                    [.text (score sampleRuntime (field o "confidence_score"))]],
               .text "\n          ",
               .elem "ul" [] ((outfitItems o).map specEntryNode),
               .text "\n        "])) ∧
    (submit sampleRuntime (serverJson (.arr sampleOutfits)) (sampleForm "2" "[]")
      emptyPage).results =
      { html := "",
        appended := [{ className := "outfit-card",
                       content := .html "\n          <h3>Outfit #1 <span class=\"badge\">80%</span></h3>\n          <ul><li><strong>top1</strong> <span class=\"muted\">(top)</span></li></ul>\n        " }] } ∧
    (submit sampleRuntime (serverJson (.arr sampleOutfits)) (sampleForm "2" "[]")
      emptyPage).results.children =
      some [.elem "div" [("class", "outfit-card")]
        [.text "\n          ",
         .elem "h3" []
           [.text "Outfit #1 ", .elem "span" [("class", "badge")] [.text "80%"]],
         .text "\n          ",
         .elem "ul" []
           [.elem "li" []
              [.elem "strong" [] [.text "top1"], .text " ",
               .elem "span" [("class", "muted")] [.text "(top)"]]],
         .text "\n        "]] :=
  ⟨⟨rfl, by decide, List.cons_ne_nil _ _, sampleOutfits_wellFormed, plain_numberToString,
    by decide⟩,
   ⟨(C7_one_card_per_outfit sampleRuntime (serverJson (.arr sampleOutfits))
      (sampleForm "2" "[]") emptyPage [] (jsonResponse (.arr sampleOutfits))
      sampleOutfits rfl rfl (by decide) rfl (List.cons_ne_nil _ _) sampleOutfits_wellFormed).1,
    (C7_one_card_per_outfit sampleRuntime (serverJson (.arr sampleOutfits))
      (sampleForm "2" "[]") emptyPage [] (jsonResponse (.arr sampleOutfits))
      sampleOutfits rfl rfl (by decide) rfl (List.cons_ne_nil _ _)
      sampleOutfits_wellFormed).2.1,
    (C7_one_card_per_outfit sampleRuntime (serverJson (.arr sampleOutfits))
      (sampleForm "2" "[]") emptyPage [] (jsonResponse (.arr sampleOutfits))
      sampleOutfits rfl rfl (by decide) rfl (List.cons_ne_nil _ _)
      sampleOutfits_wellFormed).2.2.1,
    (C7_one_card_per_outfit sampleRuntime (serverJson (.arr sampleOutfits))
      (sampleForm "2" "[]") emptyPage [] (jsonResponse (.arr sampleOutfits))
      sampleOutfits rfl rfl (by decide) rfl (List.cons_ne_nil _ _)
      sampleOutfits_wellFormed).2.2.2 plain_numberToString (by decide)⟩,
   by decide, rfl⟩

/-! ## The badge -/

/-- C8, as stated, fails: for the Number `0.155`, whose exact value is a little
below 155/1000, the integer nearest to `100 * s` is 15 and the badge is `16%`,
because the double product `s * 100` is exactly 15.5; for an infinite score the
badge is `Infinity%`, no integer at all; and for the score `2^62` the integer
nearest to `100 * s` is 461168601842738790400 while the badge shows the shortest
digits that identify the Number, padded with zeros. -/
theorem C8_badge_differs_from_nearest_integer :
    JsNum.IsDouble score0155 ∧
    ⌊100 * JsNum.value score0155 + 1 / 2⌋ = 15 ∧
    score sampleRuntime (.num score0155) = "16%" ∧
    JsNum.mul100 score0155 = .fin false 31 (-1) ∧
    score sampleRuntime (.num (.inf false)) = "Infinity%" ∧
    JsNum.IsDouble (.fin false 1 62) ∧
    ⌊100 * JsNum.value (.fin false 1 62) + 1 / 2⌋ = 461168601842738790400 ∧
    score sampleRuntime (.num (.fin false 1 62)) = "461168601842738800000%" := by
  refine ⟨by decide, ?_, by decide, by decide, by decide, by decide, ?_, by decide⟩
  · rw [Int.floor_eq_iff]
    simp only [score0155, JsNum.value, Bool.false_eq_true, if_false, one_mul]
    norm_num
  · rw [Int.floor_eq_iff]
    simp only [JsNum.value, Bool.false_eq_true, if_false, one_mul]
    norm_num

/-- C8, amended: for every finite Number `s = (-1)^neg * m * 2^e` as
`confidence_score`, (1) when the double product `s * 100` is finite, it differs
from the exact `100 * s` by at most `2^-53` of its magnitude (or `2^-1075`), and
when the integer `k` nearest to it (a tie rounded up) is at most `2^53` in
magnitude, the badge is `k` in decimal digits followed by `%`; (2) when the
product overflows, the badge is `Infinity%` or `-Infinity%`; (3) when `s` lies in
[0,1], the badge is a whole percentage from `0%` to `100%`; (4) the score 0.8
gives the badge `80%`. -/
theorem C8_badge_is_rounded_double_product (rt : Runtime) (neg : Bool) (m : Nat) (e : Int) :
    (∀ neg1 m1 e1, JsNum.mul100 (.fin neg m e) = .fin neg1 m1 e1 →
      |JsNum.value (.fin neg1 m1 e1) - 100 * JsNum.value (.fin neg m e)| ≤
          max (|100 * JsNum.value (.fin neg m e)| * (2 : ℚ) ^ (-53 : Int))
            ((2 : ℚ) ^ (-1075 : Int)) ∧
        ((⌊JsNum.value (.fin neg1 m1 e1) + 1 / 2⌋).natAbs ≤ 2 ^ 53 →
          score rt (.num (.fin neg m e)) =
            (if ⌊JsNum.value (.fin neg1 m1 e1) + 1 / 2⌋ < 0 then "-" else "") ++
              toString (⌊JsNum.value (.fin neg1 m1 e1) + 1 / 2⌋).natAbs ++ "%")) ∧
    (∀ neg1, JsNum.mul100 (.fin neg m e) = .inf neg1 →
      score rt (.num (.fin neg m e)) = if neg1 then "-Infinity%" else "Infinity%") ∧
    (0 ≤ JsNum.value (.fin neg m e) ∧ JsNum.value (.fin neg m e) ≤ 1 →
      ∃ k : Nat, k ≤ 100 ∧ score rt (.num (.fin neg m e)) = toString k ++ "%") ∧
    score rt (.num (.fin false 3602879701896397 (-52))) = "80%" := by
  have hbadge : score rt (.num (.fin neg m e)) =
      JsNum.toJsString rt.fmt (JsNum.mathRound (JsNum.mul100 (.fin neg m e))) ++ "%" := rfl
  refine ⟨?_, ?_, ?_, ?_⟩
  · intro neg1 m1 e1 hmul
    refine ⟨?_, ?_⟩
    · obtain ⟨hsign, herr⟩ := JsNum.roundDyadic_error hmul
      subst hsign
      have hA : (0 : ℚ) ≤ (m : ℚ) * (2 : ℚ) ^ e := by positivity
      have h1 : JsNum.value (.fin neg1 m1 e1) - 100 * JsNum.value (.fin neg1 m e) =
          (if neg1 then -1 else 1) *
            ((m1 : ℚ) * (2 : ℚ) ^ e1 - ((m * 100 : Nat) : ℚ) * (2 : ℚ) ^ e) := by
        simp only [JsNum.value]
        push_cast
        ring
      have h2 : |100 * JsNum.value (.fin neg1 m e)| = ((m * 100 : Nat) : ℚ) * (2 : ℚ) ^ e := by
        simp only [JsNum.value]
        push_cast
        cases neg1
        · simp only [Bool.false_eq_true, if_false, one_mul]
          rw [abs_of_nonneg (by positivity)]
          ring
        · simp only [if_true]
          rw [show (100 : ℚ) * (-1 * (m : ℚ) * (2 : ℚ) ^ e) = -(100 * ((m : ℚ) * (2 : ℚ) ^ e)) by
            ring, abs_neg, abs_of_nonneg (by positivity)]
          ring
      have h3 : ∀ x : ℚ, |(if neg1 then (-1 : ℚ) else 1) * x| = |x| := by
        intro x
        cases neg1 <;> simp
      rw [h1, h2, h3]
      exact herr
    · intro hk
      rw [hbadge, hmul, JsNum.toJsString_mathRound rt.fmt neg1 m1 e1 hk]
  · intro neg1 hmul
    rw [hbadge, hmul]
    cases neg1 <;> rfl
  · rintro ⟨h0, h1⟩
    by_cases hm : m = 0
    · subst hm
      refine ⟨0, by omega, ?_⟩
      rw [hbadge]
      simp only [JsNum.mul100, Nat.zero_mul, JsNum.roundDyadic_zero_mag]
      rfl
    · have hneg : neg = false := by
        cases neg
        · rfl
        · exfalso
          simp only [JsNum.value, if_true] at h0
          have hm1 : (0 : ℚ) < m := by exact_mod_cast Nat.pos_of_ne_zero hm
          have hp : (0 : ℚ) < (2 : ℚ) ^ e := by positivity
          nlinarith
      subst hneg
      obtain ⟨he, hle⟩ := JsNum.le_one_bounds hm h1
      obtain ⟨m1, e1, hr, hv⟩ := JsNum.roundDyadic_le (m * 100) 100 e he (by norm_num)
        (by rw [Nat.mul_comm]; exact Nat.mul_le_mul_left 100 hle)
      have hv0 : (0 : ℚ) ≤ JsNum.value (.fin false m1 e1) := by
        simp only [JsNum.value, Bool.false_eq_true, if_false, one_mul]
        positivity
      have hk0 : 0 ≤ ⌊JsNum.value (.fin false m1 e1) + 1 / 2⌋ :=
        Int.floor_nonneg.mpr (by linarith)
      have hk100 : ⌊JsNum.value (.fin false m1 e1) + 1 / 2⌋ ≤ 100 := by
        have := Int.floor_le (JsNum.value (.fin false m1 e1) + 1 / 2)
        have h3 : ((⌊JsNum.value (.fin false m1 e1) + 1 / 2⌋ : Int) : ℚ) < 101 := by
          push_cast at hv
          linarith
        have h4 : ⌊JsNum.value (.fin false m1 e1) + 1 / 2⌋ < 101 := by exact_mod_cast h3
        omega
      have hmul : JsNum.mul100 (.fin false m e) = .fin false m1 e1 := hr
      refine ⟨(⌊JsNum.value (.fin false m1 e1) + 1 / 2⌋).natAbs, by omega, ?_⟩
      rw [hbadge, hmul, JsNum.toJsString_mathRound rt.fmt false m1 e1 (by omega),
        if_neg (by omega)]
      simp
  · rfl

/-- C8, amended, at the score 0.8: the double product is 80, the badge is `80%`,
and 0.8 lies in [0,1]. -/
theorem C8_badge_is_rounded_double_product_witness :
    (JsNum.mul100 (.fin false 3602879701896397 (-52)) = .fin false 5 4 ∧
      (⌊JsNum.value (.fin false 5 4) + 1 / 2⌋).natAbs ≤ 2 ^ 53 ∧
      (0 ≤ JsNum.value (.fin false 3602879701896397 (-52)) ∧
        JsNum.value (.fin false 3602879701896397 (-52)) ≤ 1)) ∧
    ((∀ neg1 m1 e1, JsNum.mul100 (.fin false 3602879701896397 (-52)) = .fin neg1 m1 e1 →
        |JsNum.value (.fin neg1 m1 e1)
            - 100 * JsNum.value (.fin false 3602879701896397 (-52))| ≤
          max (|100 * JsNum.value (.fin false 3602879701896397 (-52))| * (2 : ℚ) ^ (-53 : Int))
            ((2 : ℚ) ^ (-1075 : Int)) ∧
        ((⌊JsNum.value (.fin neg1 m1 e1) + 1 / 2⌋).natAbs ≤ 2 ^ 53 →
          score sampleRuntime (.num (.fin false 3602879701896397 (-52))) =
            (if ⌊JsNum.value (.fin neg1 m1 e1) + 1 / 2⌋ < 0 then "-" else "") ++
              toString (⌊JsNum.value (.fin neg1 m1 e1) + 1 / 2⌋).natAbs ++ "%")) ∧
      (∀ neg1, JsNum.mul100 (.fin false 3602879701896397 (-52)) = .inf neg1 →
        score sampleRuntime (.num (.fin false 3602879701896397 (-52))) =
          if neg1 then "-Infinity%" else "Infinity%") ∧
      (0 ≤ JsNum.value (.fin false 3602879701896397 (-52)) ∧
          JsNum.value (.fin false 3602879701896397 (-52)) ≤ 1 →
        ∃ k : Nat, k ≤ 100 ∧
          score sampleRuntime (.num (.fin false 3602879701896397 (-52))) =
            toString k ++ "%") ∧
      score sampleRuntime (.num (.fin false 3602879701896397 (-52))) = "80%") :=
  ⟨⟨by decide,
    by rw [JsNum.value_of_nonneg false 5 (by decide), JsNum.floor_int_add_half]; decide,
    by simp only [JsNum.value, Bool.false_eq_true, if_false, one_mul]; norm_num⟩,
   C8_badge_is_rounded_double_product sampleRuntime false 3602879701896397 (-52)⟩

/-- C9: for a `confidence_score` that is not a Number the badge is never a
percentage but always the same placeholder, and that placeholder is the three
code points U+00E2 U+20AC U+201D of the source file, not the em dash U+2014. The
card of an outfit without `confidence_score` carries it. -/
theorem C9_placeholder_is_not_the_em_dash :
    (∀ (rt : Runtime) (v : JsVal), v.isNumber = false →
      score rt v = "â€”") ∧
    "â€”" ≠ "—" ∧
    ("â€”").length = 3 ∧
    (submit sampleRuntime (serverJson (.arr [.obj [("items", .arr [])]])) (sampleForm "2" "[]")
      emptyPage).results =
      { html := "",
        appended := [{ className := "outfit-card",
                       content := .html "\n          <h3>Outfit #1 <span class=\"badge\">â€”</span></h3>\n          <ul></ul>\n        " }] } := by
  refine ⟨?_, by decide, by decide, by decide⟩
  intro rt v hv
  cases v <;> first | rfl | simp [JsVal.isNumber] at hv

/-! ## Exceptions inside the `try` block -/

/-- C10, as stated, fails where the exception message holds markup: for a
response with status 200 whose body `</div><div>x` is no JSON, parsing throws the
message of V8, which quotes the body, and the results area ends up holding two
elements, the error panel cut short and a second `div`, not one panel with the
text `Unexpected error: m`. -/
theorem C10_markup_in_message_splits_panel :
    (textResponse 200 "</div><div>x").json =
      .error "Unexpected token '<', \"</div><div>x\" is not valid JSON" ∧
    (submit sampleRuntime (serverText 200 "</div><div>x") (sampleForm "2" "[]")
      emptyPage).results.html =
      "<div class=\"error\">Unexpected error: Unexpected token '<', \"</div><div>x\" is not valid JSON</div>" ∧
    (submit sampleRuntime (serverText 200 "</div><div>x") (sampleForm "2" "[]")
      emptyPage).results.children =
      some [errorPanel "Unexpected error: Unexpected token '<', \"",
            .elem "div" [] [.text "x\" is not valid JSON"]] ∧
    (submit sampleRuntime (serverText 200 "</div><div>x") (sampleForm "2" "[]")
      emptyPage).results.children ≠
      some [errorPanel
        "Unexpected error: Unexpected token '<', \"</div><div>x\" is not valid JSON"] := by
  refine ⟨rfl, rfl, rfl, ?_⟩
  intro h
  have h2 : (submit sampleRuntime (serverText 200 "</div><div>x") (sampleForm "2" "[]")
      emptyPage).results.children =
      some [errorPanel "Unexpected error: Unexpected token '<', \"",
            .elem "div" [] [.text "x\" is not valid JSON"]] := rfl
  rw [h2] at h
  simp at h

/-- C10, amended: with an array inventory, when `fetch` rejects with message `m`,
or reading the body of a response with a failure status throws `m`, or parsing
the body of a success response throws `m`, or showing the parsed outfits throws
`m` (a `null` entry, a value that is not an array), the results area is left with
the error markup with `m` inserted as it is and with no appended element (neither
the loading indicator nor a card), and the effects of the submission hold exactly
one request. When `m` holds none of `<`, `&`, U+0000, U+000D, the area ends up
holding exactly one error panel, with the text `Unexpected error: m`. -/
theorem C10_exception_shows_unexpected_error (rt : Runtime) (net : Request → FetchResult)
    (form : Form) (p0 : Page) (items : List JsVal) (m : String)
    (h : rt.jsonParse form.inventory = .ok (.arr items))
    (hthrow :
      net (request rt (payload form.occasion_type form.weather (.arr items)
        (max_outfits form.max_outfits) form.consider_previous)) = .failed m ∨
      ∃ res, net (request rt (payload form.occasion_type form.weather (.arr items)
          (max_outfits form.max_outfits) form.consider_previous)) = .response res ∧
        (((res.status < 200 ∨ 299 < res.status) ∧ res.text = .error m) ∨
         ((200 ≤ res.status ∧ res.status ≤ 299) ∧ res.json = .error m) ∨
         ((200 ≤ res.status ∧ res.status ≤ 299) ∧
           ∃ outfits, res.json = .ok outfits ∧
             (showOutfits rt outfits emptyPage).1 = .error m))) :
    (submit rt net form p0).results =
        { html := "<div class=\"error\">Unexpected error: " ++ m ++ "</div>",
          appended := [] } ∧
      (∃ added, (submit rt net form p0).log = p0.log ++ added ∧
        requests added = [request rt (payload form.occasion_type form.weather (.arr items)
          (max_outfits form.max_outfits) form.consider_previous)]) ∧
      (Plain m →
        (submit rt net form p0).results.children =
          some [errorPanel ("Unexpected error: " ++ m)]) := by
  have hres : (submit rt net form p0).results =
      { html := "<div class=\"error\">Unexpected error: " ++ m ++ "</div>",
        appended := [] } := by
    rw [submit_of_array rt net form p0 items h]
    apply catch_results
    rcases hthrow with hnet | ⟨res, hnet, hcase⟩
    · simp [tryBody, hnet]
    · rw [tryBody_of_response rt net _ _ res hnet]
      rcases hcase with ⟨hs, ht⟩ | ⟨hs, hj⟩ | ⟨hs, outfits, hj, hshow⟩
      · simp [ok_false_of_status hs, ht]
      · simp [ok_true_of_status hs, hj]
      · simp only [ok_true_of_status hs, hj, Bool.not_true, Bool.false_eq_true, if_false]
        rw [showOutfits_fst rt outfits _ emptyPage]
        exact hshow
  refine ⟨hres, submit_requests rt net form p0 items h, ?_⟩
  intro hp
  have h1 : Plain "Unexpected error: " := by decide
  have h2 : ("Unexpected error: " : String) ≠ "" := by decide
  have h3 : ("<div class=\"error\">Unexpected error: " : String) =
    "<div class=\"error\">" ++ "Unexpected error: " := by decide
  rw [hres, h3, String.append_assoc]
  exact children_errorPanel ("Unexpected error: " ++ m) (Plain.append h1 hp)
    (append_ne_empty "Unexpected error: " m h2)

/-- C10, amended, at a response whose array holds a `null` entry after a valid
outfit: the card of the first outfit is appended, then one error panel with the
message of the TypeError replaces it. -/
theorem C10_exception_shows_unexpected_error_witness :
    (sampleRuntime.jsonParse (sampleForm "2" "[]").inventory = .ok (.arr []) ∧
      (serverJson (.arr sampleWithNull)
          (request sampleRuntime (payload (sampleForm "2" "[]").occasion_type
            (sampleForm "2" "[]").weather (.arr []) (max_outfits (sampleForm "2" "[]").max_outfits)
            (sampleForm "2" "[]").consider_previous)) =
          .failed "Cannot read properties of null (reading 'confidence_score')" ∨
        ∃ res, serverJson (.arr sampleWithNull)
            (request sampleRuntime (payload (sampleForm "2" "[]").occasion_type
              (sampleForm "2" "[]").weather (.arr [])
              (max_outfits (sampleForm "2" "[]").max_outfits)
              (sampleForm "2" "[]").consider_previous)) = .response res ∧
          (((res.status < 200 ∨ 299 < res.status) ∧
              res.text = .error "Cannot read properties of null (reading 'confidence_score')") ∨
           ((200 ≤ res.status ∧ res.status ≤ 299) ∧
              res.json = .error "Cannot read properties of null (reading 'confidence_score')") ∨
           ((200 ≤ res.status ∧ res.status ≤ 299) ∧
             ∃ outfits, res.json = .ok outfits ∧
               (showOutfits sampleRuntime outfits emptyPage).1 =
                 .error "Cannot read properties of null (reading 'confidence_score')"))) ∧
      Plain "Cannot read properties of null (reading 'confidence_score')") ∧
    ((submit sampleRuntime (serverJson (.arr sampleWithNull)) (sampleForm "2" "[]")
        emptyPage).results =
        { html := "<div class=\"error\">Unexpected error: "
            ++ "Cannot read properties of null (reading 'confidence_score')" ++ "</div>",
          appended := [] } ∧
      (∃ added, (submit sampleRuntime (serverJson (.arr sampleWithNull))
          (sampleForm "2" "[]") emptyPage).log = emptyPage.log ++ added ∧
        requests added = [request sampleRuntime (payload (sampleForm "2" "[]").occasion_type
          (sampleForm "2" "[]").weather (.arr []) (max_outfits (sampleForm "2" "[]").max_outfits)
          (sampleForm "2" "[]").consider_previous)]) ∧
      (submit sampleRuntime (serverJson (.arr sampleWithNull)) (sampleForm "2" "[]")
        emptyPage).results.children =
        some [errorPanel ("Unexpected error: "
          ++ "Cannot read properties of null (reading 'confidence_score')")]) ∧
    appendedEls (submit sampleRuntime (serverJson (.arr sampleWithNull))
      (sampleForm "2" "[]") emptyPage).log =
      [loading,
       { className := "outfit-card",
         content := .html "\n          <h3>Outfit #1 <span class=\"badge\">80%</span></h3>\n          <ul><li><strong>top1</strong> <span class=\"muted\">(top)</span></li></ul>\n        " }] :=
  ⟨⟨rfl, Or.inr ⟨(jsonResponse (.arr sampleWithNull)), rfl,
      Or.inr (Or.inr ⟨by decide, .arr sampleWithNull, rfl, rfl⟩)⟩, by decide⟩,
   ⟨(C10_exception_shows_unexpected_error sampleRuntime
     (serverJson (.arr sampleWithNull)) (sampleForm "2" "[]") emptyPage []
     "Cannot read properties of null (reading 'confidence_score')" rfl
     (Or.inr ⟨(jsonResponse (.arr sampleWithNull)), rfl,
       Or.inr (Or.inr ⟨by decide, .arr sampleWithNull, rfl, rfl⟩)⟩)).1,
    (C10_exception_shows_unexpected_error sampleRuntime
     (serverJson (.arr sampleWithNull)) (sampleForm "2" "[]") emptyPage []
     "Cannot read properties of null (reading 'confidence_score')" rfl
     (Or.inr ⟨(jsonResponse (.arr sampleWithNull)), rfl,
       Or.inr (Or.inr ⟨by decide, .arr sampleWithNull, rfl, rfl⟩)⟩)).2.1,
    (C10_exception_shows_unexpected_error sampleRuntime
     (serverJson (.arr sampleWithNull)) (sampleForm "2" "[]") emptyPage []
     "Cannot read properties of null (reading 'confidence_score')" rfl
     (Or.inr ⟨(jsonResponse (.arr sampleWithNull)), rfl,
       Or.inr (Or.inr ⟨by decide, .arr sampleWithNull, rfl, rfl⟩)⟩)).2.2 (by decide)⟩,
   by decide⟩

/-! ## The fixture inventory -/

theorem mem_stringsOf {tags : List JsVal} {s : String} (h : s ∈ stringsOf tags) :
    JsVal.str s ∈ tags := by
  induction tags with
  | nil => simp [stringsOf] at h
  | cons t rest ih =>
    cases t with
    | str s1 =>
      simp only [stringsOf, List.mem_cons] at h
      rcases h with h | h
      · subst h
        exact List.mem_cons_self _ _
      · exact List.mem_cons_of_mem _ (ih h)
    | _ => exact List.mem_cons_of_mem _ (ih (by simpa [stringsOf] using h))

theorem listsTag_sound {it : JsVal} {key tag : String} (h : listsTag it key tag = true) :
    ∃ tags, field it key = .arr tags ∧ JsVal.str tag ∈ tags := by
  unfold listsTag at h
  split at h
  · rename_i tags htags
    refine ⟨tags, htags, ?_⟩
    rw [List.any_eq_true] at h
    obtain ⟨t, ht, hs⟩ := h
    split at hs
    · rename_i s
      have : s = tag := by simpa using hs
      subst this
      exact ht
    · cases hs
  · cases h

theorem suits_sound {it : JsVal} {item_type occasion weather : String}
    (h : suits it item_type occasion weather = true) :
    field it "item_type" = .str item_type ∧ field it "is_clean" = .bool true ∧
      (∃ tags, field it "occasion_suitability" = .arr tags ∧ JsVal.str occasion ∈ tags) ∧
      (∃ tags, field it "weather_suitability" = .arr tags ∧ JsVal.str weather ∈ tags) := by
  unfold suits at h
  simp only [Bool.and_eq_true] at h
  obtain ⟨⟨⟨h1, h2⟩, h3⟩, h4⟩ := h
  refine ⟨?_, ?_, listsTag_sound h3, listsTag_sound h4⟩
  · split at h1
    · rename_i s hs
      have : s = item_type := by simpa using h1
      rw [hs, this]
    · cases h1
  · split at h2
    · rename_i b hb
      rw [hb, h2]
    · cases h2

/-- The check of the fixture succeeds. -/
theorem defaultInventory_coversAll : coversAll (elements defaultInventory) = true := by
  decide

/-- The occasion and weather tags that occur in the fixture are those of the
claim. -/
theorem defaultInventory_tags :
    ((tagsOf (elements defaultInventory) "occasion_suitability").all
        (fun t => decide (t ∈ occasionTags)) &&
      occasionTags.all
        (fun t => decide (t ∈ tagsOf (elements defaultInventory) "occasion_suitability")) &&
      (tagsOf (elements defaultInventory) "weather_suitability").all
        (fun t => decide (t ∈ weatherTags)) &&
      weatherTags.all
        (fun t => decide (t ∈ tagsOf (elements defaultInventory) "weather_suitability")))
      = true := by
  decide

/-- C11: for every occasion tag among formal, business_casual, casual, sporty,
evening, beach, party, every weather tag among cool, mild, warm, hot, cold,
rainy, and each of the types top, bottom and shoes, `defaultInventory` holds an
item of that type with `is_clean` true whose `occasion_suitability` lists the
occasion and whose `weather_suitability` lists the weather; and these seven and
six tags are exactly the occasion and weather tags that occur in the fixture. -/
theorem C11_fixture_covers_every_combination (occasion weather item_type : String)
    (ho : occasion ∈
      ["formal", "business_casual", "casual", "sporty", "evening", "beach", "party"])
    (hw : weather ∈ ["cool", "mild", "warm", "hot", "cold", "rainy"])
    (ht : item_type ∈ ["top", "bottom", "shoes"]) :
    (∃ it ∈ elements defaultInventory,
      field it "item_type" = .str item_type ∧ field it "is_clean" = .bool true ∧
      (∃ tags, field it "occasion_suitability" = .arr tags ∧ JsVal.str occasion ∈ tags) ∧
      (∃ tags, field it "weather_suitability" = .arr tags ∧ JsVal.str weather ∈ tags)) ∧
    (∀ t, t ∈ tagsOf (elements defaultInventory) "occasion_suitability" ↔
      t ∈ ["formal", "business_casual", "casual", "sporty", "evening", "beach", "party"]) ∧
    (∀ t, t ∈ tagsOf (elements defaultInventory) "weather_suitability" ↔
      t ∈ ["cool", "mild", "warm", "hot", "cold", "rainy"]) := by
  have hall := defaultInventory_coversAll
  have htags := defaultInventory_tags
  simp only [coversAll, List.all_eq_true, List.any_eq_true] at hall
  simp only [Bool.and_eq_true, List.all_eq_true, decide_eq_true_eq] at htags
  obtain ⟨⟨⟨ho1, ho2⟩, hw1⟩, hw2⟩ := htags
  refine ⟨?_, fun t => ⟨ho1 t, ho2 t⟩, fun t => ⟨hw1 t, hw2 t⟩⟩
  obtain ⟨it, hit, hs⟩ := hall occasion ho weather hw item_type ht
  exact ⟨it, hit, suits_sound hs⟩

/-- C11 at the beach in the rain, for shoes: the fixture has the water sandals. -/
theorem C11_fixture_covers_every_combination_witness :
    ("beach" ∈ ["formal", "business_casual", "casual", "sporty", "evening", "beach", "party"] ∧
      "rainy" ∈ ["cool", "mild", "warm", "hot", "cold", "rainy"] ∧
      "shoes" ∈ ["top", "bottom", "shoes"]) ∧
    ((∃ it ∈ elements defaultInventory,
      field it "item_type" = .str "shoes" ∧ field it "is_clean" = .bool true ∧
      (∃ tags, field it "occasion_suitability" = .arr tags ∧ JsVal.str "beach" ∈ tags) ∧
      (∃ tags, field it "weather_suitability" = .arr tags ∧ JsVal.str "rainy" ∈ tags)) ∧
    (∀ t, t ∈ tagsOf (elements defaultInventory) "occasion_suitability" ↔
      t ∈ ["formal", "business_casual", "casual", "sporty", "evening", "beach", "party"]) ∧
    (∀ t, t ∈ tagsOf (elements defaultInventory) "weather_suitability" ↔
      t ∈ ["cool", "mild", "warm", "hot", "cold", "rainy"])) :=
  ⟨⟨by decide, by decide, by decide⟩,
   C11_fixture_covers_every_combination "beach" "rainy" "shoes" (by decide) (by decide)
     (by decide)⟩


end OutfitSearch
